import Mathlib

/-!
Verification of the turn-based RPG engine (`rpg2.py`) of the repository
`jairosann/Practicas-de-Python`.

The Python source is shallowly embedded: Python `int` is modelled as `Int`
(Python integers are unbounded), Python `float` arithmetic inside the damage
and healing formulas is modelled over `ℚ` with `pyInt` playing the role of
Python's `int()` truncation toward zero, dictionaries are modelled as
association lists preserving insertion order, and the session's pseudo-random
generator is modelled as an oracle consisting of a stream of rationals (for
`random()` / `uniform`) and a stream of naturals (for `randint` / `choice`).
Interactive sub-prompts (skill / item selection inside a combat action) are
modelled by passing the outcome of the prompt as an explicit parameter.
-/

/-- `clamp` from rpg2.py line 671: `max(minimum, min(maximum, value))`. -/
def clamp (value minimum maximum : Int) : Int :=
  max minimum (min maximum value)

/-- Python `int()` applied to a rational value: truncation toward zero. -/
def pyInt (q : ℚ) : Int :=
  if 0 ≤ q then ⌊q⌋ else ⌈q⌉

theorem clamp_lower (v m : Int) : 0 ≤ clamp v 0 m := le_max_left 0 _

theorem clamp_upper (v m : Int) (hm : 0 ≤ m) : clamp v 0 m ≤ m :=
  max_le hm (min_le_left m v)

theorem clamp_of_mem (v m : Int) (h0 : 0 ≤ v) (h1 : v ≤ m) : clamp v 0 m = v := by
  unfold clamp
  rw [min_eq_right h1, max_eq_right h0]

theorem pyInt_ge_one (q : ℚ) (h : 1 ≤ q) : 1 ≤ pyInt q := by
  unfold pyInt
  rw [if_pos (le_trans zero_le_one h)]
  exact_mod_cast Int.le_floor.mpr (by exact_mod_cast h)

/-- `ClassType` enum (rpg2.py lines 22-25). -/
inductive ClassType
  | WARRIOR
  | MAGE
  | ROGUE
deriving DecidableEq

/-- `ActionType` enum (rpg2.py lines 28-33). -/
inductive ActionType
  | ATTACK
  | SKILL
  | ITEM
  | DEFEND
  | FLEE
deriving DecidableEq

/-- `StatusType` enum (rpg2.py lines 36-40). -/
inductive StatusType
  | POISON
  | BURN
  | STUN
  | REGEN
deriving DecidableEq

/-- `TileType` enum (rpg2.py lines 43-48). -/
inductive TileType
  | TOWN
  | FOREST
  | CAVE
  | RUINS
  | LAKE
deriving DecidableEq

/-- `State` enum (rpg2.py lines 51-60). -/
inductive State
  | MAIN_MENU
  | EXPLORATION
  | COMBAT
  | SHOP
  | INVENTORY
  | CHARACTER
  | QUESTS
  | SAVELOAD
  | GAME_OVER
deriving DecidableEq

/-- `Stats` dataclass (rpg2.py lines 63-75). -/
structure Stats where
  lvl : Int
  exp : Int
  hp : Int
  hp_max : Int
  mp : Int
  mp_max : Int
  str : Int
  int_ : Int
  agi : Int
  def_ : Int
  gold : Int
deriving DecidableEq

/-- `Player.apply_damage` (rpg2.py line 583): clamp `hp - amount` into `[0, hp_max]`.
The same clamped formula is used inline for enemies (lines 1291, 1299, 1496). -/
def statsApplyDamage (s : Stats) (amount : Int) : Stats :=
  { s with hp := clamp (s.hp - amount) 0 s.hp_max }

/-- `Player.heal` (rpg2.py line 586). -/
def statsHeal (s : Stats) (amount : Int) : Stats :=
  { s with hp := clamp (s.hp + amount) 0 s.hp_max }

/-- `Player.restore_mp` (rpg2.py line 589). -/
def statsRestoreMp (s : Stats) (amount : Int) : Stats :=
  { s with mp := clamp (s.mp + amount) 0 s.mp_max }

/-- The damage / heal / mana-restore mutations of a stats block. -/
inductive StatsMut
  | damage (amount : Int)
  | heal (amount : Int)
  | restoreMp (amount : Int)

def applyStatsMut (s : Stats) : StatsMut → Stats
  | .damage a => statsApplyDamage s a
  | .heal a => statsHeal s a
  | .restoreMp a => statsRestoreMp s a

def applyStatsMuts (s : Stats) (muts : List StatsMut) : Stats :=
  muts.foldl applyStatsMut s

/-- The health/mana bounds invariant of a stats block. -/
def StatsInv (s : Stats) : Prop :=
  0 ≤ s.hp ∧ s.hp ≤ s.hp_max ∧ 0 ≤ s.mp ∧ s.mp ≤ s.mp_max

theorem statsInv_step (s : Stats) (m : StatsMut) (h : StatsInv s) :
    StatsInv (applyStatsMut s m) := by
  obtain ⟨h1, h2, h3, h4⟩ := h
  have hhm : (0 : Int) ≤ s.hp_max := le_trans h1 h2
  have hmm : (0 : Int) ≤ s.mp_max := le_trans h3 h4
  cases m with
  | damage a =>
    exact ⟨clamp_lower _ _, clamp_upper _ _ hhm, h3, h4⟩
  | heal a =>
    exact ⟨clamp_lower _ _, clamp_upper _ _ hhm, h3, h4⟩
  | restoreMp a =>
    exact ⟨h1, h2, clamp_lower _ _, clamp_upper _ _ hmm⟩

/-- C1. Every sequence of damage/heal/mana-restore mutations applied to a stats
block satisfying the bounds invariant keeps `0 ≤ hp ≤ hp_max` and
`0 ≤ mp ≤ mp_max`; instantiating `muts` at each prefix of a longer sequence
gives the invariant after every intermediate operation as well. -/
theorem stats_mutations_preserve_bounds (s : Stats) (muts : List StatsMut)
    (h : StatsInv s) : StatsInv (applyStatsMuts s muts) := by
  induction muts generalizing s with
  | nil => exact h
  | cons m rest ih => exact ih _ (statsInv_step s m h)

/-- Base warrior stats (rpg2.py line 1820). -/
def warriorStats : Stats :=
  { lvl := 1, exp := 0, hp := 50, hp_max := 50, mp := 15, mp_max := 15,
    str := 10, int_ := 5, agi := 7, def_ := 8, gold := 30 }

/-- Witness for C1 at a concrete stats block and mutation sequence. -/
theorem stats_mutations_preserve_bounds_witness :
    StatsInv warriorStats ∧
      StatsInv (applyStatsMuts warriorStats
        [StatsMut.damage 60, StatsMut.heal 7, StatsMut.restoreMp 100]) :=
  ⟨by constructor <;> simp [warriorStats], stats_mutations_preserve_bounds warriorStats
    [StatsMut.damage 60, StatsMut.heal 7, StatsMut.restoreMp 100]
    (by constructor <;> simp [warriorStats])⟩

/-- Value of an entry of an item's `effect` dict: the annotated type is
`Dict[str, int]` but the `cure` key actually maps to a status-name string. -/
inductive EffVal
  | num (n : Int)
  | txt (s : String)
deriving DecidableEq

/-- An item's `effect` mapping, as an insertion-ordered association list. -/
abbrev EffectMap := List (String × EffVal)

/-- `Skill` dataclass (rpg2.py lines 125-132); `status` is the optional
(status, potency, duration) template. -/
structure Skill where
  name : String
  description : String
  mp_cost : Int
  base_power : Int
  scaling : String
  status : Option (StatusType × Int × Int) := none
deriving DecidableEq

/-- `Item` dataclass (rpg2.py lines 173-179). -/
structure Item where
  name : String
  description : String
  effect : EffectMap
  price : Int
  consumable : Bool := true
deriving DecidableEq

/-- `Equipment` dataclass (rpg2.py lines 201-207). -/
structure Equipment where
  name : String
  description : String
  slot : String
  stat_bonuses : List (String × Int)
  price : Int
deriving DecidableEq

/-- `StatusEffect` dataclass (rpg2.py lines 111-115). -/
structure StatusEffect where
  status : StatusType
  potency : Int
  duration : Int
deriving DecidableEq

/-- `Quest` dataclass (rpg2.py lines 229-240). -/
structure Quest where
  name : String
  description : String
  objective_type : String
  target : String
  required : Int
  reward_exp : Int
  reward_gold : Int
  reward_item : Option Item := none
  progress : Int := 0
  completed : Bool := false
deriving DecidableEq

/-- `Location` dataclass (rpg2.py lines 282-290); `danger` is a Python float
modelled as a rational. -/
structure Location where
  position : Int × Int
  tile_type : TileType
  discovered : Bool := false
  zone : String := ""
  description : String := ""
  danger : ℚ := 0
  features : List String := []
deriving DecidableEq

/-- `Player` dataclass (rpg2.py lines 520-530); the `equipment` dict is an
insertion-ordered association list from slot name to equipment. -/
structure Player where
  name : String
  class_type : ClassType
  stats : Stats
  skills : List Skill
  inventory : List Item := []
  equipment : List (String × Equipment) := []
  status_effects : List StatusEffect := []
  quests : List Quest := []
  position : Int × Int := (0, 0)
deriving DecidableEq

/-- `Enemy` dataclass (rpg2.py lines 502-508). -/
structure Enemy where
  name : String
  stats : Stats
  skills : List Skill
  drops : List Item
  status_effects : List StatusEffect := []
deriving DecidableEq

/-- `calc_damage` (rpg2.py lines 679-699).  The three random draws consumed by
the function — the `uniform(0.85, 1.0)` variance and the two `roll_chance`
draws compared against the crit and block chances — are passed explicitly.
The float constants 0.6, 0.45, 1.5, 0.5 are modelled as exact rationals. -/
def calc_damage (attacker defender : Stats) (skill : Option Skill)
    (variance critRoll blockRoll : ℚ) : Int :=
  let power : Int :=
    match skill with
    | some sk => sk.base_power
    | none => max 5 attacker.str
  let scaling_value : Int :=
    match skill with
    | some sk => if sk.scaling = "str" then attacker.str else attacker.int_
    | none => attacker.str
  let base : Int := power + pyInt ((scaling_value : ℚ) * (3 / 5))
  let damage : Int := pyInt ((base : ℚ) * variance)
  let mitigation : Int := pyInt ((defender.def_ : ℚ) * (9 / 20))
  let damage : Int := max 1 (damage - mitigation)
  let crit_chance : ℚ := min (1 / 2) ((attacker.agi : ℚ) / 150)
  let damage : Int := if critRoll < crit_chance then pyInt ((damage : ℚ) * (3 / 2)) else damage
  let block_chance : ℚ := min (3 / 10) ((defender.def_ : ℚ) / 200)
  let damage : Int := if blockRoll < block_chance then max 1 (pyInt ((damage : ℚ) * (1 / 2))) else damage
  damage

theorem one_le_crit_ite (c : Prop) [Decidable c] (d : Int) (h : 1 ≤ d) :
    1 ≤ (if c then pyInt ((d : ℚ) * (3 / 2)) else d) := by
  split
  · refine pyInt_ge_one _ ?_
    have hd : (1 : ℚ) ≤ (d : ℚ) := by exact_mod_cast h
    nlinarith
  · exact h

theorem one_le_block_ite (c : Prop) [Decidable c] (d : Int) (h : 1 ≤ d) :
    1 ≤ (if c then max 1 (pyInt ((d : ℚ) * (1 / 2))) else d) := by
  split
  · exact le_max_left 1 _
  · exact h

/-- Shared helper: the damage formula never returns less than 1. -/
theorem calc_damage_pos (attacker defender : Stats) (skill : Option Skill)
    (variance critRoll blockRoll : ℚ) :
    1 ≤ calc_damage attacker defender skill variance critRoll blockRoll := by
  unfold calc_damage
  exact one_le_block_ite _ _ (one_le_crit_ite _ _ (le_max_left 1 _))

/-- C3. For every attacker and defender stats block, every optional skill and
every random draw (variance, crit roll, block roll), `calc_damage` returns at
least 1 — including when the mitigation term is zero, negative, or larger than
the pre-mitigation damage, and after the crit and block multipliers. -/
theorem calc_damage_min_one (attacker defender : Stats) (skill : Option Skill)
    (variance critRoll blockRoll : ℚ) :
    1 ≤ calc_damage attacker defender skill variance critRoll blockRoll :=
  calc_damage_pos attacker defender skill variance critRoll blockRoll

/-- The eleven attribute names of a `Stats` block, as targeted by the string
keys of `Stats.apply_delta` / `Equipment.stat_bonuses`. -/
inductive StatField
  | lvl
  | exp
  | hp
  | hp_max
  | mp
  | mp_max
  | str
  | int_
  | agi
  | def_
  | gold
deriving DecidableEq

/-- Resolution of a delta key to a stats attribute (`getattr`/`setattr` by
name in `Stats.apply_delta`, rpg2.py lines 103-106). -/
def parseStatKey (k : String) : Option StatField :=
  if k = "lvl" then some .lvl
  else if k = "exp" then some .exp
  else if k = "hp" then some .hp
  else if k = "hp_max" then some .hp_max
  else if k = "mp" then some .mp
  else if k = "mp_max" then some .mp_max
  else if k = "str" then some .str
  else if k = "int_" then some .int_
  else if k = "agi" then some .agi
  else if k = "def_" then some .def_
  else if k = "gold" then some .gold
  else none

def getStatF (s : Stats) : StatField → Int
  | .lvl => s.lvl
  | .exp => s.exp
  | .hp => s.hp
  | .hp_max => s.hp_max
  | .mp => s.mp
  | .mp_max => s.mp_max
  | .str => s.str
  | .int_ => s.int_
  | .agi => s.agi
  | .def_ => s.def_
  | .gold => s.gold

def addStatF (s : Stats) (f : StatField) (v : Int) : Stats :=
  match f with
  | .lvl => { s with lvl := s.lvl + v }
  | .exp => { s with exp := s.exp + v }
  | .hp => { s with hp := s.hp + v }
  | .hp_max => { s with hp_max := s.hp_max + v }
  | .mp => { s with mp := s.mp + v }
  | .mp_max => { s with mp_max := s.mp_max + v }
  | .str => { s with str := s.str + v }
  | .int_ => { s with int_ := s.int_ + v }
  | .agi => { s with agi := s.agi + v }
  | .def_ => { s with def_ := s.def_ + v }
  | .gold => { s with gold := s.gold + v }

/-- One `setattr(self, key, current + delta)` step of `Stats.apply_delta`.
Keys that name no stats attribute would raise `AttributeError` in Python; no
dictionary in the program carries such a key, and they are modelled as no-ops. -/
def applyDeltaStep (st : Stats) (kv : String × Int) : Stats :=
  match parseStatKey kv.1 with
  | some f => addStatF st f kv.2
  | none => st

/-- The final clamping of `Stats.apply_delta` (rpg2.py lines 107-108). -/
def clampHpMp (s : Stats) : Stats :=
  { s with hp := clamp s.hp 0 s.hp_max, mp := clamp s.mp 0 s.mp_max }

/-- `Stats.apply_delta` (rpg2.py lines 103-108): add every delta, then clamp
current hp and mp into `[0, max]`. -/
def apply_delta (s : Stats) (deltas : List (String × Int)) : Stats :=
  clampHpMp (deltas.foldl applyDeltaStep s)

/-- Net delta that a bonus dictionary contributes to one stats attribute. -/
def deltaVal (entries : List (String × Int)) (f : StatField) : Int :=
  (entries.map (fun kv => if parseStatKey kv.1 = some f then kv.2 else 0)).sum

/-- The negated dictionary `{key: -value ...}` built by `equip`/`unequip`. -/
def negBonuses (entries : List (String × Int)) : List (String × Int) :=
  entries.map (fun kv => (kv.1, -kv.2))

/-- `self.equipment.get(slot)`: first entry with the given slot key. -/
def lookupSlot : List (String × Equipment) → String → Option Equipment
  | [], _ => none
  | kv :: rest, k => if kv.1 = k then some kv.2 else lookupSlot rest k

/-- `self.equipment[slot] = equipment`: dict assignment (replace in place, or
append a fresh key at the end). -/
def assocSet : List (String × Equipment) → String → Equipment → List (String × Equipment)
  | [], k, v => [(k, v)]
  | kv :: rest, k, v => if kv.1 = k then (kv.1, v) :: rest else kv :: assocSet rest k v

/-- `self.equipment.pop(slot, None)`: dict removal of the slot key. -/
def assocPop : List (String × Equipment) → String → List (String × Equipment)
  | [], _ => []
  | kv :: rest, k => if kv.1 = k then rest else kv :: assocPop rest k

/-- `Player.equip` (rpg2.py lines 592-598). -/
def Player.equip (p : Player) (equipment : Equipment) : Player :=
  let stats1 :=
    match lookupSlot p.equipment equipment.slot with
    | some previous => apply_delta p.stats (negBonuses previous.stat_bonuses)
    | none => p.stats
  { p with stats := apply_delta stats1 equipment.stat_bonuses,
           equipment := assocSet p.equipment equipment.slot equipment }

/-- `Player.unequip` (rpg2.py lines 600-604). -/
def Player.unequip (p : Player) (slot : String) : Player :=
  match lookupSlot p.equipment slot with
  | none => p
  | some equipment =>
    { p with stats := apply_delta p.stats (negBonuses equipment.stat_bonuses),
             equipment := assocPop p.equipment slot }

/-- An equip or unequip operation. -/
inductive EquipOp
  | doEquip (e : Equipment)
  | doUnequip (slot : String)

def applyEquipOp (p : Player) : EquipOp → Player
  | .doEquip e => p.equip e
  | .doUnequip slot => p.unequip slot

def applyEquipOps (p : Player) (ops : List EquipOp) : Player :=
  ops.foldl applyEquipOp p

/-- Sum over the currently equipped items of their bonus to one attribute. -/
def sumEquipBonus (l : List (String × Equipment)) (f : StatField) : Int :=
  (l.map (fun kv => deltaVal kv.2.stat_bonuses f)).sum

theorem getStatF_addStatF (s : Stats) (f' : StatField) (v : Int) (f : StatField) :
    getStatF (addStatF s f' v) f = getStatF s f + (if f' = f then v else 0) := by
  cases f' <;> cases f <;> simp [getStatF, addStatF]

theorem getStatF_applyDeltaStep (s : Stats) (kv : String × Int) (f : StatField) :
    getStatF (applyDeltaStep s kv) f =
      getStatF s f + (if parseStatKey kv.1 = some f then kv.2 else 0) := by
  cases h : parseStatKey kv.1 with
  | none => simp [applyDeltaStep, h]
  | some f' =>
    simp only [applyDeltaStep, h, getStatF_addStatF, Option.some.injEq]

theorem deltaVal_cons (kv : String × Int) (rest : List (String × Int)) (f : StatField) :
    deltaVal (kv :: rest) f =
      (if parseStatKey kv.1 = some f then kv.2 else 0) + deltaVal rest f := by
  simp [deltaVal]

theorem getStatF_foldl (entries : List (String × Int)) :
    ∀ (s : Stats) (f : StatField),
      getStatF (entries.foldl applyDeltaStep s) f = getStatF s f + deltaVal entries f := by
  induction entries with
  | nil => intro s f; simp [deltaVal]
  | cons kv rest ih =>
    intro s f
    rw [List.foldl_cons, ih, getStatF_applyDeltaStep, deltaVal_cons]
    ring

theorem getStatF_clampHpMp (s : Stats) (f : StatField)
    (h1 : f ≠ StatField.hp) (h2 : f ≠ StatField.mp) :
    getStatF (clampHpMp s) f = getStatF s f := by
  cases f <;> simp_all [getStatF, clampHpMp]

theorem getStatF_apply_delta (s : Stats) (l : List (String × Int)) (f : StatField)
    (h1 : f ≠ StatField.hp) (h2 : f ≠ StatField.mp) :
    getStatF (apply_delta s l) f = getStatF s f + deltaVal l f := by
  unfold apply_delta
  rw [getStatF_clampHpMp _ _ h1 h2, getStatF_foldl]

theorem deltaVal_negBonuses (l : List (String × Int)) (f : StatField) :
    deltaVal (negBonuses l) f = -deltaVal l f := by
  induction l with
  | nil => rfl
  | cons kv rest ih =>
    have h1 : deltaVal (negBonuses (kv :: rest)) f =
        (if parseStatKey kv.1 = some f then -kv.2 else 0) + deltaVal (negBonuses rest) f := by
      show deltaVal ((kv.1, -kv.2) :: negBonuses rest) f = _
      rw [deltaVal_cons]
    rw [h1, ih, deltaVal_cons]
    split <;> ring

theorem sumEquipBonus_cons (kv : String × Equipment) (rest : List (String × Equipment))
    (f : StatField) :
    sumEquipBonus (kv :: rest) f = deltaVal kv.2.stat_bonuses f + sumEquipBonus rest f := by
  simp [sumEquipBonus]

theorem sumEquipBonus_assocSet_some (l : List (String × Equipment)) (k : String)
    (v prev : Equipment) (h : lookupSlot l k = some prev) (f : StatField) :
    sumEquipBonus (assocSet l k v) f =
      sumEquipBonus l f - deltaVal prev.stat_bonuses f + deltaVal v.stat_bonuses f := by
  induction l with
  | nil => simp [lookupSlot] at h
  | cons kv rest ih =>
    by_cases hk : kv.1 = k
    · rw [lookupSlot, if_pos hk] at h
      obtain rfl : kv.2 = prev := Option.some.inj h
      rw [assocSet, if_pos hk, sumEquipBonus_cons, sumEquipBonus_cons]
      ring
    · rw [lookupSlot, if_neg hk] at h
      rw [assocSet, if_neg hk, sumEquipBonus_cons, sumEquipBonus_cons, ih h]
      ring

theorem assocSet_of_lookup_none (l : List (String × Equipment)) (k : String)
    (v : Equipment) (h : lookupSlot l k = none) :
    assocSet l k v = l ++ [(k, v)] := by
  induction l with
  | nil => rfl
  | cons kv rest ih =>
    by_cases hk : kv.1 = k
    · rw [lookupSlot, if_pos hk] at h
      exact absurd h (by simp)
    · rw [lookupSlot, if_neg hk] at h
      rw [assocSet, if_neg hk, ih h, List.cons_append]

theorem sumEquipBonus_append (l1 l2 : List (String × Equipment)) (f : StatField) :
    sumEquipBonus (l1 ++ l2) f = sumEquipBonus l1 f + sumEquipBonus l2 f := by
  simp [sumEquipBonus]

theorem sumEquipBonus_assocPop_some (l : List (String × Equipment)) (k : String)
    (prev : Equipment) (h : lookupSlot l k = some prev) (f : StatField) :
    sumEquipBonus (assocPop l k) f = sumEquipBonus l f - deltaVal prev.stat_bonuses f := by
  induction l with
  | nil => simp [lookupSlot] at h
  | cons kv rest ih =>
    by_cases hk : kv.1 = k
    · rw [lookupSlot, if_pos hk] at h
      obtain rfl : kv.2 = prev := Option.some.inj h
      rw [assocPop, if_pos hk, sumEquipBonus_cons]
      ring
    · rw [lookupSlot, if_neg hk] at h
      rw [assocPop, if_neg hk, sumEquipBonus_cons, sumEquipBonus_cons, ih h]
      ring

/-- The quantity preserved by every equip/unequip operation on the
non-clamped attributes. -/
def bonusGap (p : Player) (f : StatField) : Int :=
  getStatF p.stats f - sumEquipBonus p.equipment f

theorem bonusGap_equipOp (p : Player) (op : EquipOp) (f : StatField)
    (h1 : f ≠ StatField.hp) (h2 : f ≠ StatField.mp) :
    bonusGap (applyEquipOp p op) f = bonusGap p f := by
  cases op with
  | doEquip e =>
    unfold bonusGap applyEquipOp Player.equip
    cases hl : lookupSlot p.equipment e.slot with
    | some prev =>
      simp only [hl]
      rw [getStatF_apply_delta _ _ _ h1 h2, getStatF_apply_delta _ _ _ h1 h2,
        deltaVal_negBonuses, sumEquipBonus_assocSet_some _ _ _ _ hl]
      ring
    | none =>
      simp only [hl]
      rw [getStatF_apply_delta _ _ _ h1 h2,
        assocSet_of_lookup_none _ _ _ hl, sumEquipBonus_append]
      simp [sumEquipBonus]
  | doUnequip slot =>
    unfold bonusGap applyEquipOp Player.unequip
    cases hl : lookupSlot p.equipment slot with
    | some prev =>
      simp only [hl]
      rw [getStatF_apply_delta _ _ _ h1 h2, deltaVal_negBonuses,
        sumEquipBonus_assocPop_some _ _ _ hl]
      ring
    | none => simp only [hl]

theorem bonusGap_equipOps (p : Player) (ops : List EquipOp) (f : StatField)
    (h1 : f ≠ StatField.hp) (h2 : f ≠ StatField.mp) :
    bonusGap (applyEquipOps p ops) f = bonusGap p f := by
  induction ops generalizing p with
  | nil => rfl
  | cons op rest ih =>
    rw [applyEquipOps, List.foldl_cons]
    rw [show (List.foldl applyEquipOp (applyEquipOp p op) rest) =
      applyEquipOps (applyEquipOp p op) rest from rfl]
    rw [ih, bonusGap_equipOp _ _ _ h1 h2]

theorem apply_delta_hp (s : Stats) (l : List (String × Int)) :
    (apply_delta s l).hp =
      clamp (s.hp + deltaVal l StatField.hp) 0 (s.hp_max + deltaVal l StatField.hp_max) := by
  show clamp (l.foldl applyDeltaStep s).hp 0 (l.foldl applyDeltaStep s).hp_max = _
  rw [show (l.foldl applyDeltaStep s).hp = s.hp + deltaVal l StatField.hp from
        getStatF_foldl l s StatField.hp,
      show (l.foldl applyDeltaStep s).hp_max = s.hp_max + deltaVal l StatField.hp_max from
        getStatF_foldl l s StatField.hp_max]

theorem apply_delta_mp (s : Stats) (l : List (String × Int)) :
    (apply_delta s l).mp =
      clamp (s.mp + deltaVal l StatField.mp) 0 (s.mp_max + deltaVal l StatField.mp_max) := by
  show clamp (l.foldl applyDeltaStep s).mp 0 (l.foldl applyDeltaStep s).mp_max = _
  rw [show (l.foldl applyDeltaStep s).mp = s.mp + deltaVal l StatField.mp from
        getStatF_foldl l s StatField.mp,
      show (l.foldl applyDeltaStep s).mp_max = s.mp_max + deltaVal l StatField.mp_max from
        getStatF_foldl l s StatField.mp_max]

theorem apply_delta_hp_max (s : Stats) (l : List (String × Int)) :
    (apply_delta s l).hp_max = s.hp_max + deltaVal l StatField.hp_max :=
  getStatF_foldl l s StatField.hp_max

theorem apply_delta_mp_max (s : Stats) (l : List (String × Int)) :
    (apply_delta s l).mp_max = s.mp_max + deltaVal l StatField.mp_max :=
  getStatF_foldl l s StatField.mp_max

theorem statsEq_of_getF (s t : Stats) (h : ∀ f, getStatF s f = getStatF t f) : s = t := by
  cases s; cases t
  simp only [Stats.mk.injEq]
  exact ⟨h .lvl, h .exp, h .hp, h .hp_max, h .mp, h .mp_max, h .str, h .int_, h .agi,
    h .def_, h .gold⟩

theorem lookupSlot_append_single (l : List (String × Equipment)) (k : String)
    (v : Equipment) (h : lookupSlot l k = none) :
    lookupSlot (l ++ [(k, v)]) k = some v := by
  induction l with
  | nil => simp [lookupSlot]
  | cons kv rest ih =>
    rw [lookupSlot] at h
    by_cases hk : kv.1 = k
    · rw [if_pos hk] at h; exact absurd h (by simp)
    · rw [if_neg hk] at h
      rw [List.cons_append, lookupSlot, if_neg hk, ih h]

theorem assocPop_append_single (l : List (String × Equipment)) (k : String)
    (v : Equipment) (h : lookupSlot l k = none) :
    assocPop (l ++ [(k, v)]) k = l := by
  induction l with
  | nil => simp [assocPop]
  | cons kv rest ih =>
    rw [lookupSlot] at h
    by_cases hk : kv.1 = k
    · rw [if_pos hk] at h; exact absurd h (by simp)
    · rw [if_neg hk] at h
      rw [List.cons_append, assocPop, if_neg hk, ih h]

theorem equip_unequip_restores (p : Player) (e : Equipment)
    (hslot : lookupSlot p.equipment e.slot = none)
    (hhp : deltaVal e.stat_bonuses StatField.hp = 0)
    (hmp : deltaVal e.stat_bonuses StatField.mp = 0)
    (hhm : 0 ≤ deltaVal e.stat_bonuses StatField.hp_max)
    (hmm : 0 ≤ deltaVal e.stat_bonuses StatField.mp_max)
    (hinv : StatsInv p.stats) :
    (p.equip e).unequip e.slot = p := by
  obtain ⟨i1, i2, i3, i4⟩ := hinv
  have hq : p.equip e =
      { p with
        stats := apply_delta p.stats e.stat_bonuses
        equipment := p.equipment ++ [(e.slot, e)] } := by
    unfold Player.equip
    rw [hslot, assocSet_of_lookup_none _ _ _ hslot]
  rw [hq]
  unfold Player.unequip
  dsimp only
  rw [lookupSlot_append_single _ _ _ hslot]
  dsimp only
  rw [assocPop_append_single _ _ _ hslot]
  have hs : apply_delta (apply_delta p.stats e.stat_bonuses) (negBonuses e.stat_bonuses) =
      p.stats := by
    apply statsEq_of_getF
    intro f
    by_cases hfh : f = StatField.hp
    · subst hfh
      show (apply_delta (apply_delta p.stats e.stat_bonuses) (negBonuses e.stat_bonuses)).hp =
        p.stats.hp
      have e1 : (apply_delta p.stats e.stat_bonuses).hp = p.stats.hp := by
        rw [apply_delta_hp, hhp, add_zero]
        exact clamp_of_mem _ _ i1 (le_trans i2 (by linarith))
      rw [apply_delta_hp, e1, apply_delta_hp_max, deltaVal_negBonuses, deltaVal_negBonuses,
        hhp, neg_zero, add_zero]
      rw [show p.stats.hp_max + deltaVal e.stat_bonuses StatField.hp_max +
        -deltaVal e.stat_bonuses StatField.hp_max = p.stats.hp_max by ring]
      exact clamp_of_mem _ _ i1 i2
    · by_cases hfm : f = StatField.mp
      · subst hfm
        show (apply_delta (apply_delta p.stats e.stat_bonuses) (negBonuses e.stat_bonuses)).mp =
          p.stats.mp
        have e1 : (apply_delta p.stats e.stat_bonuses).mp = p.stats.mp := by
          rw [apply_delta_mp, hmp, add_zero]
          exact clamp_of_mem _ _ i3 (le_trans i4 (by linarith))
        rw [apply_delta_mp, e1, apply_delta_mp_max, deltaVal_negBonuses, deltaVal_negBonuses,
          hmp, neg_zero, add_zero]
        rw [show p.stats.mp_max + deltaVal e.stat_bonuses StatField.mp_max +
          -deltaVal e.stat_bonuses StatField.mp_max = p.stats.mp_max by ring]
        exact clamp_of_mem _ _ i3 i4
      · rw [getStatF_apply_delta _ _ _ hfh hfm, getStatF_apply_delta _ _ _ hfh hfm,
          deltaVal_negBonuses]
        ring
  rw [hs]

/-- C7-counterexample player: a fresh warrior with no equipment. -/
def playerC7 : Player :=
  { name := "Heroína", class_type := .WARRIOR, stats := warriorStats, skills := [] }

/-- An equipment piece whose bonus dictionary targets current hp, as the
`Equipment` dataclass permits. -/
def hpDrainEquip : Equipment :=
  { name := "Talismán", description := "", slot := "accessory",
    stat_bonuses := [("hp", 10)], price := 0 }

/-- C7-counterexample. Equipping an item whose bonus touches current hp and
immediately unequipping the same slot does not restore hp: the +10 hp bonus is
clamped away at `hp_max` on equip, and the -10 on unequip then lands at 40,
not the original 50. -/
theorem equip_unequip_hp_counterexample :
    ((playerC7.equip hpDrainEquip).unequip "accessory").stats.hp = 40 ∧
      playerC7.stats.hp = 50 := by
  exact ⟨rfl, rfl⟩

/-- C7 (amended). (1) For every starting player and every sequence of
equip/unequip operations, each stats attribute other than current hp and
current mp equals its starting value plus the net bonus of the currently
equipped items (clamping makes current hp/mp exceptions).  (2) Equip followed
by an immediate unequip of the same slot restores the player exactly whenever
the slot was previously empty and the equipment's bonuses neither touch
current hp/mp nor decrease the hp/mp maxima. -/
theorem equip_bonus_invariant :
    (∀ (p : Player) (ops : List EquipOp) (f : StatField),
        f ≠ StatField.hp → f ≠ StatField.mp →
        getStatF (applyEquipOps p ops).stats f -
            sumEquipBonus (applyEquipOps p ops).equipment f =
          getStatF p.stats f - sumEquipBonus p.equipment f) ∧
    (∀ (p : Player) (e : Equipment),
        lookupSlot p.equipment e.slot = none →
        deltaVal e.stat_bonuses StatField.hp = 0 →
        deltaVal e.stat_bonuses StatField.mp = 0 →
        0 ≤ deltaVal e.stat_bonuses StatField.hp_max →
        0 ≤ deltaVal e.stat_bonuses StatField.mp_max →
        StatsInv p.stats →
        (p.equip e).unequip e.slot = p) :=
  ⟨fun p ops f h1 h2 => bonusGap_equipOps p ops f h1 h2,
   fun p e h1 h2 h3 h4 h5 h6 => equip_unequip_restores p e h1 h2 h3 h4 h5 h6⟩

/-- "Espada de Bronce" from the shop catalog (rpg2.py line 1435). -/
def bronzeSword : Equipment :=
  { name := "Espada de Bronce", description := "Espada equilibrada para guerreros",
    slot := "weapon", stat_bonuses := [("str", 3)], price := 22 }

/-- "Amuleto de Maná" from the shop catalog (rpg2.py line 1438). -/
def manaAmulet : Equipment :=
  { name := "Amuleto de Maná", description := "Aumenta tu reserva de magia",
    slot := "accessory", stat_bonuses := [("mp_max", 6)], price := 26 }

/-- Witness for C7 at a concrete player, operation list and equipment. -/
theorem equip_bonus_invariant_witness :
    (getStatF (applyEquipOps playerC7 [EquipOp.doEquip bronzeSword]).stats StatField.str -
        sumEquipBonus (applyEquipOps playerC7 [EquipOp.doEquip bronzeSword]).equipment
          StatField.str =
      getStatF playerC7.stats StatField.str - sumEquipBonus playerC7.equipment StatField.str) ∧
      (playerC7.equip manaAmulet).unequip manaAmulet.slot = playerC7 :=
  ⟨equip_bonus_invariant.1 playerC7 [EquipOp.doEquip bronzeSword] StatField.str
      (by decide) (by decide),
   equip_bonus_invariant.2 playerC7 manaAmulet (by decide) (by decide) (by decide)
      (by decide) (by decide) (by constructor <;> simp [playerC7, warriorStats])⟩

/-!
Persistence (`GameState.to_dict` / `GameState.from_dict`, rpg2.py lines
618-658).  The serialized document is modelled structurally; the one place
where the document genuinely re-encodes data as text — the `game_map` keys
`f"{x},{y}"`, split on `","` and parsed with `int()` on load — is modelled
down to the character level.
-/

/-- The character for one decimal digit (as in Python's `str` of an int). -/
def digitChar (d : Nat) : Char := Char.ofNat (48 + d)

/-- Numeric value of a decimal digit character. -/
def charVal (c : Char) : Nat := c.toNat - 48

def isDigitChar (c : Char) : Bool := decide (48 ≤ c.toNat) && decide (c.toNat ≤ 57)

/-- Decimal rendering of a natural number, most significant digit first,
as produced by Python's f-string. -/
def natChars (n : Nat) : List Char :=
  if n = 0 then [Char.ofNat 48] else ((Nat.digits 10 n).map digitChar).reverse

/-- Python `int()` on a digit-only string (the shapes produced by
`GameState.to_dict`; other accepted Python spellings such as leading `+` or
whitespace never occur in a generated save). -/
def parseNat? (cs : List Char) : Option Nat :=
  if cs = [] then none
  else if cs.all isDigitChar then some (cs.foldl (fun a c => a * 10 + charVal c) 0)
  else none

/-- Decimal rendering of a Python int, with a leading minus sign. -/
def intChars (x : Int) : List Char :=
  if x < 0 then Char.ofNat 45 :: natChars (-x).toNat else natChars x.toNat

def parseInt? (cs : List Char) : Option Int :=
  match cs with
  | [] => none
  | c :: rest =>
    if c = Char.ofNat 45 then (parseNat? rest).map (fun n => -Int.ofNat n)
    else (parseNat? (c :: rest)).map (fun n => Int.ofNat n)

theorem charVal_digitChar (d : Nat) (h : d < 10) : charVal (digitChar d) = d := by
  interval_cases d <;> rfl

theorem isDigitChar_digitChar (d : Nat) (h : d < 10) : isDigitChar (digitChar d) = true := by
  interval_cases d <;> rfl

theorem digitChar_ne_comma (d : Nat) (h : d < 10) : digitChar d ≠ Char.ofNat 44 := by
  interval_cases d <;> decide

theorem digitChar_ne_minus (d : Nat) (h : d < 10) : digitChar d ≠ Char.ofNat 45 := by
  interval_cases d <;> decide

theorem foldl_digit_chars (l : List Nat) (hl : ∀ d ∈ l, d < 10) (a : Nat) :
    ((l.map digitChar).reverse).foldl (fun acc c => acc * 10 + charVal c) a =
      a * 10 ^ l.length + Nat.ofDigits 10 l := by
  induction l generalizing a with
  | nil => simp
  | cons d ds ih =>
    have hd : d < 10 := hl d (List.mem_cons_self d ds)
    have hds : ∀ x ∈ ds, x < 10 := fun x hx => hl x (List.mem_cons_of_mem d hx)
    rw [List.map_cons, List.reverse_cons, List.foldl_append, ih hds]
    simp only [List.foldl_cons, List.foldl_nil, charVal_digitChar d hd,
      Nat.ofDigits_cons, List.length_cons]
    ring

theorem natChars_all_digits (n : Nat) : natChars n = [] ∨ natChars n ≠ [] ∧
    (natChars n).all isDigitChar = true := by
  by_cases h : n = 0
  · subst h
    exact Or.inr ⟨by decide, by decide⟩
  · right
    constructor
    · unfold natChars
      rw [if_neg h]
      simp [Nat.digits_ne_nil_iff_ne_zero.mpr h]
    · unfold natChars
      rw [if_neg h]
      rw [List.all_eq_true]
      intro c hc
      rw [List.mem_reverse, List.mem_map] at hc
      obtain ⟨d, hd, rfl⟩ := hc
      exact isDigitChar_digitChar d (Nat.digits_lt_base (by norm_num) hd)

theorem parseNat?_natChars (n : Nat) : parseNat? (natChars n) = some n := by
  by_cases h : n = 0
  · subst h; rfl
  · rcases natChars_all_digits n with hnil | ⟨hne, hall⟩
    · exact absurd hnil (by
        unfold natChars
        rw [if_neg h]
        simp [Nat.digits_ne_nil_iff_ne_zero.mpr h])
    · unfold parseNat?
      rw [if_neg hne, if_pos hall]
      congr 1
      unfold natChars
      rw [if_neg h]
      rw [foldl_digit_chars _ (fun d hd => Nat.digits_lt_base (by norm_num) hd) 0,
        Nat.ofDigits_digits]
      ring

theorem natChars_ne_nil (n : Nat) : natChars n ≠ [] := by
  by_cases h : n = 0
  · subst h; decide
  · unfold natChars
    rw [if_neg h]
    simp [Nat.digits_ne_nil_iff_ne_zero.mpr h]

theorem natChars_head_not_minus (n : Nat) (c : Char) (rest : List Char)
    (h : natChars n = c :: rest) : c ≠ Char.ofNat 45 := by
  by_cases hn : n = 0
  · subst hn
    simp only [natChars, if_pos rfl] at h
    obtain ⟨rfl, -⟩ := List.cons.inj h
    decide
  · unfold natChars at h
    rw [if_neg hn] at h
    have hc : c ∈ ((Nat.digits 10 n).map digitChar).reverse := by
      rw [h]; exact List.mem_cons_self c rest
    rw [List.mem_reverse, List.mem_map] at hc
    obtain ⟨d, hd, rfl⟩ := hc
    exact digitChar_ne_minus d (Nat.digits_lt_base (by norm_num) hd)

theorem parseInt?_intChars (x : Int) : parseInt? (intChars x) = some x := by
  by_cases hx : x < 0
  · unfold intChars
    rw [if_pos hx]
    rw [parseInt?, if_pos rfl, parseNat?_natChars]
    simp only [Option.map_some', Int.ofNat_eq_natCast]
    congr 1
    omega
  · unfold intChars
    rw [if_neg hx]
    obtain ⟨c, rest, hcr⟩ : ∃ c rest, natChars x.toNat = c :: rest := by
      cases h : natChars x.toNat with
      | nil => exact absurd h (natChars_ne_nil _)
      | cons c rest => exact ⟨c, rest, rfl⟩
    rw [hcr]
    rw [parseInt?, if_neg (natChars_head_not_minus _ _ _ hcr), ← hcr, parseNat?_natChars]
    simp only [Option.map_some', Int.ofNat_eq_natCast]
    congr 1
    omega

/-- Python `key.split(",")` on a list of characters. -/
def splitComma : List Char → List (List Char)
  | [] => [[]]
  | c :: cs =>
    if c = Char.ofNat 44 then [] :: splitComma cs
    else
      match splitComma cs with
      | [] => [[c]]
      | h :: t => (c :: h) :: t

theorem splitComma_ne_nil (cs : List Char) : splitComma cs ≠ [] := by
  induction cs with
  | nil => decide
  | cons c cs ih =>
    rw [splitComma]
    by_cases hc : c = Char.ofNat 44
    · rw [if_pos hc]; simp
    · rw [if_neg hc]
      cases h : splitComma cs with
      | nil => exact absurd h ih
      | cons a t => simp

theorem splitComma_no_comma (cs : List Char) (h : Char.ofNat 44 ∉ cs) :
    splitComma cs = [cs] := by
  induction cs with
  | nil => rfl
  | cons c cs ih =>
    have hc : c ≠ Char.ofNat 44 := fun hc => h (hc ▸ List.mem_cons_self c cs)
    have hcs : Char.ofNat 44 ∉ cs := fun hm => h (List.mem_cons_of_mem c hm)
    rw [splitComma, if_neg hc, ih hcs]

theorem splitComma_append (a b : List Char) (ha : Char.ofNat 44 ∉ a) :
    splitComma (a ++ Char.ofNat 44 :: b) = a :: splitComma b := by
  induction a with
  | nil =>
    show splitComma (Char.ofNat 44 :: b) = [] :: splitComma b
    rw [splitComma, if_pos rfl]
  | cons c cs ih =>
    have hc : c ≠ Char.ofNat 44 := fun hc => ha (hc ▸ List.mem_cons_self c cs)
    have hcs : Char.ofNat 44 ∉ cs := fun hm => ha (List.mem_cons_of_mem c hm)
    show splitComma (c :: (cs ++ Char.ofNat 44 :: b)) = (c :: cs) :: splitComma b
    rw [splitComma, if_neg hc, ih hcs]

theorem comma_not_mem_natChars (n : Nat) : Char.ofNat 44 ∉ natChars n := by
  by_cases h : n = 0
  · subst h; decide
  · unfold natChars
    rw [if_neg h]
    intro hm
    rw [List.mem_reverse, List.mem_map] at hm
    obtain ⟨d, hd, hdc⟩ := hm
    exact digitChar_ne_comma d (Nat.digits_lt_base (by norm_num) hd) hdc

theorem comma_not_mem_intChars (x : Int) : Char.ofNat 44 ∉ intChars x := by
  unfold intChars
  split
  · intro hm
    rcases List.mem_cons.mp hm with h | h
    · exact absurd h.symm (by decide)
    · exact comma_not_mem_natChars _ h
  · exact comma_not_mem_natChars _

/-- The dict key `f"{x},{y}"` of `GameState.to_dict` (rpg2.py line 622). -/
def posKey (p : Int × Int) : List Char :=
  intChars p.1 ++ Char.ofNat 44 :: intChars p.2

/-- The key decoding of `GameState.from_dict` (rpg2.py lines 637-639):
`x_str, y_str = key.split(",")` — a destructuring that requires exactly two
parts — followed by `int()` on both. -/
def parsePosKey (cs : List Char) : Option (Int × Int) :=
  match splitComma cs with
  | [a, b] => do
    let x ← parseInt? a
    let y ← parseInt? b
    pure (x, y)
  | _ => none

theorem parsePosKey_posKey (p : Int × Int) : parsePosKey (posKey p) = some p := by
  unfold parsePosKey posKey
  rw [splitComma_append _ _ (comma_not_mem_intChars p.1),
    splitComma_no_comma _ (comma_not_mem_intChars p.2)]
  simp [parseInt?_intChars]

/-- Python enum `.name` for `StatusType`. -/
def StatusType.name : StatusType → String
  | .POISON => "POISON"
  | .BURN => "BURN"
  | .STUN => "STUN"
  | .REGEN => "REGEN"

/-- `StatusType[name]` lookup; a `KeyError` on an unknown name is `none`. -/
def statusTypeFromName (s : String) : Option StatusType :=
  if s = "POISON" then some .POISON
  else if s = "BURN" then some .BURN
  else if s = "STUN" then some .STUN
  else if s = "REGEN" then some .REGEN
  else none

theorem statusTypeFromName_name (t : StatusType) : statusTypeFromName t.name = some t := by
  cases t <;> rfl

/-- Python enum `.name` for `TileType`. -/
def TileType.name : TileType → String
  | .TOWN => "TOWN"
  | .FOREST => "FOREST"
  | .CAVE => "CAVE"
  | .RUINS => "RUINS"
  | .LAKE => "LAKE"

def tileTypeFromName (s : String) : Option TileType :=
  if s = "TOWN" then some .TOWN
  else if s = "FOREST" then some .FOREST
  else if s = "CAVE" then some .CAVE
  else if s = "RUINS" then some .RUINS
  else if s = "LAKE" then some .LAKE
  else none

theorem tileTypeFromName_name (t : TileType) : tileTypeFromName t.name = some t := by
  cases t <;> rfl

/-- Python enum `.name` for `ClassType`. -/
def ClassType.name : ClassType → String
  | .WARRIOR => "WARRIOR"
  | .MAGE => "MAGE"
  | .ROGUE => "ROGUE"

def classTypeFromName (s : String) : Option ClassType :=
  if s = "WARRIOR" then some .WARRIOR
  else if s = "MAGE" then some .MAGE
  else if s = "ROGUE" then some .ROGUE
  else none

theorem classTypeFromName_name (t : ClassType) : classTypeFromName t.name = some t := by
  cases t <;> rfl

/-- Python enum `.name` for `State`. -/
def State.name : State → String
  | .MAIN_MENU => "MAIN_MENU"
  | .EXPLORATION => "EXPLORATION"
  | .COMBAT => "COMBAT"
  | .SHOP => "SHOP"
  | .INVENTORY => "INVENTORY"
  | .CHARACTER => "CHARACTER"
  | .QUESTS => "QUESTS"
  | .SAVELOAD => "SAVELOAD"
  | .GAME_OVER => "GAME_OVER"

def stateFromName (s : String) : Option State :=
  if s = "MAIN_MENU" then some .MAIN_MENU
  else if s = "EXPLORATION" then some .EXPLORATION
  else if s = "COMBAT" then some .COMBAT
  else if s = "SHOP" then some .SHOP
  else if s = "INVENTORY" then some .INVENTORY
  else if s = "CHARACTER" then some .CHARACTER
  else if s = "QUESTS" then some .QUESTS
  else if s = "SAVELOAD" then some .SAVELOAD
  else if s = "GAME_OVER" then some .GAME_OVER
  else none

theorem stateFromName_name (t : State) : stateFromName t.name = some t := by
  cases t <;> rfl

/-- The `"status"` sub-dict of `Skill.to_dict` (rpg2.py lines 144-148). -/
structure SkillStatusDoc where
  type : String
  potency : Int
  duration : Int
deriving DecidableEq

/-- The document produced by `Skill.to_dict` (rpg2.py lines 134-151). -/
structure SkillDoc where
  name : String
  description : String
  mp_cost : Int
  base_power : Int
  scaling : String
  status : Option SkillStatusDoc
deriving DecidableEq

def skillToDict (sk : Skill) : SkillDoc :=
  { name := sk.name, description := sk.description, mp_cost := sk.mp_cost,
    base_power := sk.base_power, scaling := sk.scaling,
    status := sk.status.map (fun st =>
      { type := StatusType.name st.1, potency := st.2.1, duration := st.2.2 }) }

/-- `Skill.from_dict` (rpg2.py lines 153-170); an unknown status name raises
(`StatusType[...]`), modelled as `none`. -/
def skillFromDict (d : SkillDoc) : Option Skill :=
  match d.status with
  | none =>
    some ({ name := d.name, description := d.description, mp_cost := d.mp_cost,
            base_power := d.base_power, scaling := d.scaling, status := none })
  | some sd => (statusTypeFromName sd.type).map (fun st =>
      { name := d.name, description := d.description, mp_cost := d.mp_cost,
        base_power := d.base_power, scaling := d.scaling,
        status := some (st, sd.potency, sd.duration) })

theorem skillFromDict_skillToDict (sk : Skill) : skillFromDict (skillToDict sk) = some sk := by
  cases sk with
  | mk n d mc bp sc status =>
    cases status with
    | none => rfl
    | some st =>
      obtain ⟨t, po, du⟩ := st
      cases t <;> rfl

/-- The document of `Item.to_dict` / `Item.from_dict` (rpg2.py lines 181-198):
all five fields copied verbatim. -/
structure ItemDoc where
  name : String
  description : String
  effect : EffectMap
  price : Int
  consumable : Bool
deriving DecidableEq

def itemToDict (i : Item) : ItemDoc :=
  { name := i.name, description := i.description, effect := i.effect,
    price := i.price, consumable := i.consumable }

def itemFromDict (d : ItemDoc) : Item :=
  { name := d.name, description := d.description, effect := d.effect,
    price := d.price, consumable := d.consumable }

/-- The document of `Equipment.to_dict` / `from_dict` (rpg2.py lines 209-226). -/
structure EquipmentDoc where
  name : String
  description : String
  slot : String
  stat_bonuses : List (String × Int)
  price : Int
deriving DecidableEq

def equipmentToDict (e : Equipment) : EquipmentDoc :=
  { name := e.name, description := e.description, slot := e.slot,
    stat_bonuses := e.stat_bonuses, price := e.price }

def equipmentFromDict (d : EquipmentDoc) : Equipment :=
  { name := d.name, description := d.description, slot := d.slot,
    stat_bonuses := d.stat_bonuses, price := d.price }

/-- The document of `StatusEffect.to_dict` (rpg2.py lines 117-118). -/
structure StatusEffectDoc where
  status : String
  potency : Int
  duration : Int
deriving DecidableEq

def statusEffectToDict (e : StatusEffect) : StatusEffectDoc :=
  { status := StatusType.name e.status, potency := e.potency, duration := e.duration }

/-- `StatusEffect.from_dict` (rpg2.py lines 120-122). -/
def statusEffectFromDict (d : StatusEffectDoc) : Option StatusEffect :=
  (statusTypeFromName d.status).map (fun st =>
    { status := st, potency := d.potency, duration := d.duration })

theorem statusEffectFromDict_statusEffectToDict (e : StatusEffect) :
    statusEffectFromDict (statusEffectToDict e) = some e := by
  cases e with
  | mk st po du => cases st <;> rfl

/-- The document of `Quest.to_dict` / `from_dict` (rpg2.py lines 242-270). -/
structure QuestDoc where
  name : String
  description : String
  objective_type : String
  target : String
  required : Int
  reward_exp : Int
  reward_gold : Int
  reward_item : Option ItemDoc
  progress : Int
  completed : Bool
deriving DecidableEq

def questToDict (q : Quest) : QuestDoc :=
  { name := q.name, description := q.description, objective_type := q.objective_type,
    target := q.target, required := q.required, reward_exp := q.reward_exp,
    reward_gold := q.reward_gold, reward_item := q.reward_item.map itemToDict,
    progress := q.progress, completed := q.completed }

def questFromDict (d : QuestDoc) : Quest :=
  { name := d.name, description := d.description, objective_type := d.objective_type,
    target := d.target, required := d.required, reward_exp := d.reward_exp,
    reward_gold := d.reward_gold, reward_item := d.reward_item.map itemFromDict,
    progress := d.progress, completed := d.completed }

theorem questFromDict_questToDict (q : Quest) : questFromDict (questToDict q) = q := by
  cases q with
  | mk n d ot tg rq re rg ri pr cp => cases ri <;> rfl

/-- The document of `Location.to_dict` / `from_dict` (rpg2.py lines 292-313);
the `[x, y]` position list is modelled as the pair it decodes back to. -/
structure LocationDoc where
  position : Int × Int
  tile_type : String
  discovered : Bool
  zone : String
  description : String
  danger : ℚ
  features : List String
deriving DecidableEq

def locationToDict (l : Location) : LocationDoc :=
  { position := l.position, tile_type := TileType.name l.tile_type,
    discovered := l.discovered, zone := l.zone, description := l.description,
    danger := l.danger, features := l.features }

def locationFromDict (d : LocationDoc) : Option Location :=
  (tileTypeFromName d.tile_type).map (fun tt =>
    { position := d.position, tile_type := tt, discovered := d.discovered,
      zone := d.zone, description := d.description, danger := d.danger,
      features := d.features })

theorem locationFromDict_locationToDict (l : Location) :
    locationFromDict (locationToDict l) = some l := by
  cases l with
  | mk pos tt di zo de da fe => cases tt <;> rfl

/-- The document of `Player.to_dict` / `from_dict` (rpg2.py lines 532-575); the
`"stats"` sub-dict carries the same eleven integer fields keyed by attribute
name (`stats.__dict__` on write, field-by-field `int()` reads on load, with the
legacy `"int"`/`"def"` fallbacks unreachable for generated saves). -/
structure PlayerDoc where
  name : String
  class_type : String
  stats : Stats
  skills : List SkillDoc
  inventory : List ItemDoc
  equipment : List (String × EquipmentDoc)
  status_effects : List StatusEffectDoc
  quests : List QuestDoc
  position : Int × Int
deriving DecidableEq

def playerToDict (p : Player) : PlayerDoc :=
  { name := p.name, class_type := ClassType.name p.class_type, stats := p.stats,
    skills := p.skills.map skillToDict,
    inventory := p.inventory.map itemToDict,
    equipment := p.equipment.map (fun kv => (kv.1, equipmentToDict kv.2)),
    status_effects := p.status_effects.map statusEffectToDict,
    quests := p.quests.map questToDict,
    position := p.position }

/-- Sequential decoding of a list, failing on the first failure, as a Python
list comprehension over a fallible element decoder does. -/
def listMapM (f : α → Option β) : List α → Option (List β)
  | [] => some []
  | x :: xs => do
    let y ← f x
    let ys ← listMapM f xs
    pure (y :: ys)

theorem listMapM_map (f : β → Option α) (g : α → β) (h : ∀ a, f (g a) = some a) :
    ∀ l : List α, listMapM f (l.map g) = some l := by
  intro l
  induction l with
  | nil => rfl
  | cons x xs ih => simp [listMapM, h x, ih]

def playerFromDict (d : PlayerDoc) : Option Player := do
  let ct ← classTypeFromName d.class_type
  let sk ← listMapM skillFromDict d.skills
  let se ← listMapM statusEffectFromDict d.status_effects
  pure { name := d.name, class_type := ct, stats := d.stats,
         skills := sk,
         inventory := d.inventory.map itemFromDict,
         equipment := d.equipment.map (fun kv => (kv.1, equipmentFromDict kv.2)),
         status_effects := se,
         quests := d.quests.map questFromDict,
         position := d.position }

theorem map_item_roundtrip (l : List Item) : (l.map itemToDict).map itemFromDict = l := by
  induction l with
  | nil => rfl
  | cons x xs ih =>
    simp only [List.map_cons]
    rw [ih]
    rfl

theorem map_equipment_entry_roundtrip (l : List (String × Equipment)) :
    (l.map (fun kv => (kv.1, equipmentToDict kv.2))).map
      (fun kv => (kv.1, equipmentFromDict kv.2)) = l := by
  induction l with
  | nil => rfl
  | cons x xs ih =>
    simp only [List.map_cons]
    rw [ih]
    rfl

theorem map_quest_roundtrip (l : List Quest) : (l.map questToDict).map questFromDict = l := by
  induction l with
  | nil => rfl
  | cons x xs ih =>
    simp only [List.map_cons]
    rw [ih, questFromDict_questToDict]

theorem playerFromDict_playerToDict (p : Player) :
    playerFromDict (playerToDict p) = some p := by
  cases p with
  | mk n ct st sk inv eqp se qs pos =>
    simp only [playerToDict, playerFromDict, classTypeFromName_name,
      listMapM_map skillFromDict skillToDict skillFromDict_skillToDict,
      listMapM_map statusEffectFromDict statusEffectToDict
        statusEffectFromDict_statusEffectToDict,
      map_item_roundtrip, map_equipment_entry_roundtrip, map_quest_roundtrip,
      Option.bind_eq_bind, Option.some_bind]
    rfl

/-- The shop stock union type `Equipment | Item` (rpg2.py line 616). -/
inductive ShopEntry
  | item (i : Item)
  | equipment (e : Equipment)
deriving DecidableEq

/-- The tagged document written for each stock entry (rpg2.py lines 627-631). -/
inductive ShopEntryDoc
  | item (v : ItemDoc)
  | equipment (v : EquipmentDoc)
deriving DecidableEq

def shopEntryToDict : ShopEntry → ShopEntryDoc
  | .item i => .item (itemToDict i)
  | .equipment e => .equipment (equipmentToDict e)

/-- The tag dispatch of `GameState.from_dict` (rpg2.py lines 644-648): a
`"kind" == "equipment"` entry decodes as equipment, anything else as an item. -/
def shopEntryFromDict : ShopEntryDoc → ShopEntry
  | .equipment v => .equipment (equipmentFromDict v)
  | .item v => .item (itemFromDict v)

theorem map_shopEntry_roundtrip (l : List ShopEntry) :
    (l.map shopEntryToDict).map shopEntryFromDict = l := by
  induction l with
  | nil => rfl
  | cons x xs ih =>
    simp only [List.map_cons]
    rw [ih]
    cases x <;> rfl

/-- `GameState` dataclass (rpg2.py lines 607-616). -/
structure GameState where
  state : State
  player : Option Player
  game_map : List ((Int × Int) × Location)
  discovered : List (Int × Int)
  day : Int
  turn_count : Int
  quest_board : List Quest
  shop_stock : List ShopEntry
deriving DecidableEq

/-- The document of `GameState.to_dict` (rpg2.py lines 618-632).  `state` is
optional because `from_dict` is the only reader that accesses a key
(`data["state"]`) without a default. -/
structure GameStateDoc where
  state : Option String
  player : Option PlayerDoc
  game_map : List (List Char × LocationDoc)
  discovered : List (Int × Int)
  day : Int := 1
  turn_count : Int := 0
  quest_board : List QuestDoc
  shop_stock : List ShopEntryDoc
deriving DecidableEq

def gameStateToDict (s : GameState) : GameStateDoc :=
  { state := some (State.name s.state),
    player := s.player.map playerToDict,
    game_map := s.game_map.map (fun e => (posKey e.1, locationToDict e.2)),
    discovered := s.discovered,
    day := s.day,
    turn_count := s.turn_count,
    quest_board := s.quest_board.map questToDict,
    shop_stock := s.shop_stock.map shopEntryToDict }

/-- One `game_map` entry of `GameState.from_dict` (rpg2.py lines 637-639):
split the key on the comma, parse both halves with `int()`, decode the
location document. -/
def mapEntryFromDict (e : List Char × LocationDoc) : Option ((Int × Int) × Location) := do
  let pos ← parsePosKey e.1
  let loc ← locationFromDict e.2
  pure (pos, loc)

/-- `GameState.from_dict` (rpg2.py lines 634-658).  `none` models an uncaught
exception (a bad map key, unknown enum name, or the `KeyError` on a missing
`"state"` field).  The map, player, quest board and stock are processed before
`data["state"]` is touched, as in the source. -/
def gameStateFromDict (d : GameStateDoc) : Option GameState := do
  let gm ← listMapM mapEntryFromDict d.game_map
  let pl ← match d.player with
           | none => some none
           | some pd => (playerFromDict pd).map some
  let stName ← d.state
  let st ← stateFromName stName
  pure { state := st, player := pl, game_map := gm, discovered := d.discovered,
         day := d.day, turn_count := d.turn_count,
         quest_board := d.quest_board.map questFromDict,
         shop_stock := d.shop_stock.map shopEntryFromDict }

theorem mapEntryFromDict_roundtrip (e : (Int × Int) × Location) :
    mapEntryFromDict (posKey e.1, locationToDict e.2) = some e := by
  obtain ⟨pos, loc⟩ := e
  simp [mapEntryFromDict, parsePosKey_posKey, locationFromDict_locationToDict]

/-- C2. Serializing a populated game state with `GameState.to_dict` and
deserializing with `GameState.from_dict` reconstructs the state exactly: equal
player (stats, position, inventory, equipment, quests), equal map and
discovery set, equal day and turn counters, and equal quest-board and
shop-stock lists. -/
theorem gameState_roundtrip (s : GameState) :
    gameStateFromDict (gameStateToDict s) = some s := by
  cases s with
  | mk st pl gm disc day tc qb stock =>
    simp only [gameStateToDict, gameStateFromDict,
      listMapM_map mapEntryFromDict (fun e => (posKey e.1, locationToDict e.2))
        mapEntryFromDict_roundtrip,
      map_quest_roundtrip, map_shopEntry_roundtrip, stateFromName_name,
      Option.bind_eq_bind, Option.some_bind]
    cases pl with
    | none => rfl
    | some p =>
      simp only [Option.map_some', playerFromDict_playerToDict, Option.some_bind]
      rfl

/-!
The game driver (`class Game`).  The session's `random.Random` instance is
modelled as an oracle: a stream of rationals consumed by `random()` /
`uniform(..)` draws and a stream of naturals consumed by `randint` /
`choice` selections.  Every modelled method consumes draws in the source's
order.
-/

/-- The pseudo-random source `self.rng` as a draw oracle. -/
structure Rng where
  qs : List ℚ
  ns : List Nat
deriving DecidableEq

def nextQ (r : Rng) : ℚ × Rng :=
  match r.qs with
  | [] => (0, r)
  | q :: rest => (q, { r with qs := rest })

def nextN (r : Rng) : Nat × Rng :=
  match r.ns with
  | [] => (0, r)
  | n :: rest => (n, { r with ns := rest })

/-- `roll_chance` (rpg2.py line 675): `rng.random() < chance`. -/
def rollChance (r : Rng) (chance : ℚ) : Bool × Rng :=
  let d := nextQ r
  (decide (d.1 < chance), d.2)

/-- `rng.choice(xs)`: a uniformly drawn element, modelled by an oracle index
reduced modulo the length; `none` on an empty list (a Python `IndexError`). -/
def chooseFrom (r : Rng) (xs : List α) : Option α × Rng :=
  let d := nextN r
  (xs.get? (d.1 % xs.length), d.2)

/-- `rng.randint(a, b)`: an oracle value folded into `[a, b]`. -/
def randint (r : Rng) (a b : Int) : Int × Rng :=
  let d := nextN r
  (a + Int.ofNat (d.1 % (b - a + 1).toNat), d.2)

/-- The mutable fields of `Game` (rpg2.py lines 740-761) that the modelled
methods read or write. -/
structure Game where
  state : State
  player : Option Player
  game_map : List ((Int × Int) × Location)
  discovered : List (Int × Int)
  current_enemy : Option Enemy
  player_guard_active : Bool
  day : Int
  turn_count : Int
  quest_board : List Quest
  shop_stock : List ShopEntry
  testing : Bool
  rng : Rng
deriving DecidableEq

/-- `CONFIG.map_size` (rpg2.py line 668). -/
def mapSize : Int := 9

def lookupLoc (m : List ((Int × Int) × Location)) (pos : Int × Int) : Option Location :=
  (m.find? (fun e => decide (e.1 = pos))).map (fun e => e.2)

/-- `enemy_slime` (rpg2.py lines 1129-1133). -/
def enemy_slime : Enemy :=
  { name := "Slime",
    stats := { lvl := 1, exp := 0, hp := 30, hp_max := 30, mp := 10, mp_max := 10,
               str := 6, int_ := 4, agi := 5, def_ := 3, gold := 5 },
    skills := [{ name := "Golpe viscoso", description := "Un golpe pegajoso.",
                 mp_cost := 0, base_power := 8, scaling := "str" }],
    drops := [{ name := "Gel", description := "Un trozo de gel.",
                effect := [("sell", EffVal.num 3)], price := 3 }] }

/-- `enemy_goblin` (rpg2.py lines 1135-1139). -/
def enemy_goblin : Enemy :=
  { name := "Goblin",
    stats := { lvl := 2, exp := 0, hp := 45, hp_max := 45, mp := 10, mp_max := 10,
               str := 9, int_ := 5, agi := 7, def_ := 4, gold := 8 },
    skills := [{ name := "Tajo", description := "Ataque veloz",
                 mp_cost := 0, base_power := 10, scaling := "str" }],
    drops := [{ name := "Daga Rota", description := "Vieja pero util",
                effect := [("sell", EffVal.num 5)], price := 5 }] }

/-- `enemy_wolf` (rpg2.py lines 1141-1151). -/
def enemy_wolf : Enemy :=
  { name := "Lobo sombrío",
    stats := { lvl := 2, exp := 0, hp := 38, hp_max := 38, mp := 12, mp_max := 12,
               str := 9, int_ := 4, agi := 10, def_ := 4, gold := 9 },
    skills := [{ name := "Mordisco", description := "Ataque rápido que desgarra.",
                 mp_cost := 0, base_power := 11, scaling := "str" },
               { name := "Aullido", description := "Intimida y aturde momentáneamente.",
                 mp_cost := 3, base_power := 0, scaling := "str",
                 status := some (StatusType.STUN, 0, 1) }],
    drops := [{ name := "Poción", description := "Recupera salud.",
                effect := [("heal_percent", EffVal.num 35)], price := 10 },
              { name := "Colmillo de lobo", description := "Material afilado.",
                effect := [("sell", EffVal.num 6)], price := 6, consumable := false }] }

/-- `enemy_bandit` (rpg2.py lines 1153-1163). -/
def enemy_bandit : Enemy :=
  { name := "Bandido",
    stats := { lvl := 3, exp := 0, hp := 42, hp_max := 42, mp := 16, mp_max := 16,
               str := 11, int_ := 6, agi := 9, def_ := 5, gold := 14 },
    skills := [{ name := "Puñalada sucia", description := "Ataque con veneno.",
                 mp_cost := 4, base_power := 14, scaling := "str",
                 status := some (StatusType.POISON, 3, 2) },
               { name := "Disparo preciso", description := "Ataque a distancia.",
                 mp_cost := 3, base_power := 16, scaling := "str" }],
    drops := [{ name := "Bomba", description := "Explosivo improvisado.",
                effect := [("damage", EffVal.num 28)], price := 22 },
              { name := "Bolsa de monedas", description := "Pequeño botín.",
                effect := [("sell", EffVal.num 12)], price := 12, consumable := false }] }

/-- `enemy_skeleton` (rpg2.py lines 1165-1175). -/
def enemy_skeleton : Enemy :=
  { name := "Esqueleto",
    stats := { lvl := 3, exp := 0, hp := 48, hp_max := 48, mp := 14, mp_max := 14,
               str := 10, int_ := 7, agi := 6, def_ := 6, gold := 16 },
    skills := [{ name := "Lanza ósea", description := "Proyectil de hueso.",
                 mp_cost := 0, base_power := 13, scaling := "str" },
               { name := "Grito sepulcral", description := "Aterroriza con energía oscura.",
                 mp_cost := 4, base_power := 0, scaling := "int",
                 status := some (StatusType.STUN, 0, 1) }],
    drops := [{ name := "Éter", description := "Recupera magia.",
                effect := [("mp_percent", EffVal.num 35)], price := 14 },
              { name := "Hueso rúnico", description := "Relicario extraño.",
                effect := [("sell", EffVal.num 15)], price := 15, consumable := false }] }

/-- `enemy_salamander` (rpg2.py lines 1177-1187). -/
def enemy_salamander : Enemy :=
  { name := "Salamandra",
    stats := { lvl := 3, exp := 0, hp := 44, hp_max := 44, mp := 18, mp_max := 18,
               str := 9, int_ := 11, agi := 7, def_ := 5, gold := 18 },
    skills := [{ name := "Zarpazo", description := "Golpe ardiente.",
                 mp_cost := 0, base_power := 12, scaling := "str" },
               { name := "Aliento ígneo", description := "Llama abrasadora.",
                 mp_cost := 5, base_power := 18, scaling := "int",
                 status := some (StatusType.BURN, 4, 2) }],
    drops := [{ name := "Escama cálida", description := "Escama que irradia calor.",
                effect := [("sell", EffVal.num 10)], price := 10, consumable := false },
              { name := "Poción", description := "Repara heridas.",
                effect := [("heal_percent", EffVal.num 40)], price := 12 }] }

/-- `enemy_spirit` (rpg2.py lines 1189-1199). -/
def enemy_spirit : Enemy :=
  { name := "Espíritu del lago",
    stats := { lvl := 3, exp := 0, hp := 40, hp_max := 40, mp := 20, mp_max := 20,
               str := 7, int_ := 12, agi := 8, def_ := 4, gold := 15 },
    skills := [{ name := "Oleada", description := "Corriente de agua cortante.",
                 mp_cost := 4, base_power := 16, scaling := "int" },
               { name := "Bruma sanadora", description := "Restablece parte de su energía.",
                 mp_cost := 5, base_power := 0, scaling := "int",
                 status := some (StatusType.REGEN, 5, 3) }],
    drops := [{ name := "Agua bendita", description := "Elimina toxinas.",
                effect := [("cure", EffVal.txt "POISON")], price := 18 },
              { name := "Perla luminosa", description := "Resplandece al tacto.",
                effect := [("sell", EffVal.num 14)], price := 14, consumable := false }] }

/-- `enemy_cave_boss` (rpg2.py lines 1201-1212). -/
def enemy_cave_boss : Enemy :=
  { name := "Tirano de la Cueva",
    stats := { lvl := 4, exp := 0, hp := 85, hp_max := 85, mp := 22, mp_max := 22,
               str := 14, int_ := 10, agi := 8, def_ := 8, gold := 35 },
    skills := [{ name := "Embate sísmico", description := "Sacude el suelo con gran fuerza.",
                 mp_cost := 0, base_power := 20, scaling := "str" },
               { name := "Rugido petrificador", description := "Aturde con un estruendo.",
                 mp_cost := 6, base_power := 0, scaling := "int",
                 status := some (StatusType.STUN, 0, 1) },
               { name := "Llama interna", description := "Invoca una erupción.",
                 mp_cost := 8, base_power := 24, scaling := "int",
                 status := some (StatusType.BURN, 5, 2) }],
    drops := [{ name := "Gema resonante", description := "Cristal cargado de energía.",
                effect := [("sell", EffVal.num 40)], price := 40, consumable := false },
              { name := "Poción", description := "Recupera gran cantidad de salud.",
                effect := [("heal_percent", EffVal.num 50)], price := 20 }] }

/-- `generate_enemy` (rpg2.py lines 1098-1127). -/
def generateEnemy (g : Game) (tile : TileType) : Enemy × Game :=
  if tile = TileType.CAVE then
    let d := nextQ g.rng
    let g1 := { g with rng := d.2 }
    if d.1 < 2 / 5 then (enemy_goblin, g1)
    else if d.1 < 3 / 4 then (enemy_salamander, g1)
    else
      let b := rollChance g1.rng (3 / 20)
      let g2 := { g1 with rng := b.2 }
      (if b.1 then enemy_cave_boss else enemy_salamander, g2)
  else if tile = TileType.FOREST then
    let d := nextQ g.rng
    let g1 := { g with rng := d.2 }
    if d.1 < 9 / 20 then (enemy_slime, g1)
    else if d.1 < 3 / 4 then (enemy_wolf, g1)
    else (enemy_bandit, g1)
  else if tile = TileType.RUINS then
    let d := nextQ g.rng
    let g1 := { g with rng := d.2 }
    if d.1 < 1 / 2 then (enemy_skeleton, g1)
    else if d.1 < 17 / 20 then (enemy_bandit, g1)
    else (enemy_cave_boss, g1)
  else if tile = TileType.LAKE then
    let d := nextQ g.rng
    let g1 := { g with rng := d.2 }
    if d.1 < 11 / 20 then (enemy_slime, g1)
    else if d.1 < 17 / 20 then (enemy_spirit, g1)
    else (enemy_wolf, g1)
  else (enemy_goblin, g)

/-- A quest board template (rpg2.py lines 1859-1923); the `item` lambda of a
template always builds the same item value, modelled as that value. -/
structure QuestTemplate where
  name : String
  description : String
  target : String
  required : Int
  exp : Int
  gold : Int
  item : Option Item
deriving DecidableEq, Inhabited

/-- `QUEST_BOARD_TEMPLATES` (rpg2.py lines 1859-1923). -/
def questBoardTemplates : List QuestTemplate :=
  [{ name := "Control de Slimes",
     description := "Mantén la pradera limpia eliminando slimes cerca de la ciudad.",
     target := "Slime", required := 3, exp := 50, gold := 30,
     item := some { name := "Poción", description := "Un extra del gremio.",
                    effect := [("heal_percent", EffVal.num 45)], price := 0 } },
   { name := "Caza de lobos",
     description := "Los lobos están atacando caravanas al norte.",
     target := "Lobo sombrío", required := 3, exp := 70, gold := 45,
     item := some { name := "Capa del cazador", description := "Mantiene el cuerpo caliente.",
                    effect := [("sell", EffVal.num 20)], price := 0, consumable := false } },
   { name := "Patrulla de bandidos",
     description := "Los caminos al oeste necesitan vigilancia constante.",
     target := "Bandido", required := 3, exp := 80, gold := 55,
     item := some { name := "Bomba", description := "Explosivo reglamentario.",
                    effect := [("damage", EffVal.num 35)], price := 0 } },
   { name := "Purga de esqueletos",
     description := "Las catacumbas emiten energía oscura.",
     target := "Esqueleto", required := 4, exp := 90, gold := 60,
     item := some { name := "Éter", description := "Suministro arcano.",
                    effect := [("mp_percent", EffVal.num 50)], price := 0 } },
   { name := "Calmar espíritus",
     description := "Los pescadores escuchan lamentos en el lago nocturno.",
     target := "Espíritu del lago", required := 2, exp := 85, gold := 58,
     item := some { name := "Agua bendita", description := "Ahuyenta maldiciones.",
                    effect := [("cure", EffVal.txt "POISON")], price := 0 } },
   { name := "Dominar salamandras",
     description := "Recupera el control de los respiraderos volcánicos de la cueva.",
     target := "Salamandra", required := 3, exp := 95, gold := 70,
     item := some { name := "Escama cálida", description := "Material raro.",
                    effect := [("sell", EffVal.num 25)], price := 0, consumable := false } },
   { name := "Derrotar al tirano",
     description := "Acaba con el Tirano de la Cueva para abrir la ruta al este.",
     target := "Tirano de la Cueva", required := 1, exp := 120, gold := 120,
     item := some { name := "Gema resonante", description := "Recuerdo del tirano.",
                    effect := [("sell", EffVal.num 60)], price := 0, consumable := false } }]

/-- The quest built from a drawn template (rpg2.py lines 1467-1482); `//` is
Python floor division. -/
def questFromTemplate (day : Int) (t : QuestTemplate) : Quest :=
  { name := t.name, description := t.description, objective_type := "kill",
    target := t.target, required := t.required + min 2 (Int.fdiv day 5),
    reward_exp := t.exp + day * 6, reward_gold := t.gold + day * 4,
    reward_item := t.item }

/-- The `while selection and len(board) < slots` draw loop of
`refresh_quest_board` (rpg2.py lines 1464-1482).  The source draws an element
with `rng.choice` and removes it with `selection.remove`; the templates are
pairwise distinct, so removal of the first equal element coincides with
removal at the drawn index.  The fuel equals the initial selection length,
which bounds the iteration count since each pass removes one template. -/
def drawQuestLoop : Nat → Rng → List QuestTemplate → Int → Nat → List Quest →
    List Quest × Rng
  | 0, r, _, _, _, board => (board, r)
  | fuel + 1, r, selection, day, slots, board =>
    if selection = [] ∨ slots ≤ board.length then (board, r)
    else
      let d := nextN r
      let idx := d.1 % selection.length
      let t := selection.getD idx default
      drawQuestLoop fuel d.2 (selection.eraseIdx idx) day slots
        (board ++ [questFromTemplate day t])

/-- `refresh_quest_board` (rpg2.py lines 1460-1482). -/
def refresh_quest_board (g : Game) : Game :=
  let slots : Nat := if g.day ≥ 6 then 4 else 3
  let drawn :=
    drawQuestLoop questBoardTemplates.length g.rng questBoardTemplates g.day slots []
  { g with quest_board := drawn.1, rng := drawn.2 }

/-- The fixed base catalog of `build_shop_stock` (rpg2.py lines 1433-1439). -/
def shopBaseStock : List ShopEntry :=
  [ShopEntry.equipment { name := "Bastón Robusto", description := "Aumenta el poder mágico",
                         slot := "weapon", stat_bonuses := [("int_", 3)], price := 20 },
   ShopEntry.equipment bronzeSword,
   ShopEntry.equipment { name := "Daga Filoazul", description := "Ligera y precisa",
                         slot := "weapon", stat_bonuses := [("agi", 2), ("str", 1)],
                         price := 21 },
   ShopEntry.equipment { name := "Chaqueta de Cuero",
                         description := "Armadura ligera resistente",
                         slot := "armor", stat_bonuses := [("def_", 3)], price := 18 },
   ShopEntry.equipment manaAmulet]

/-- The consumables of `build_shop_stock` (rpg2.py lines 1440-1445). -/
def shopConsumables : List ShopEntry :=
  [ShopEntry.item { name := "Poción", description := "Recupera una parte de tu salud.",
                    effect := [("heal_percent", EffVal.num 40)], price := 10 },
   ShopEntry.item { name := "Éter", description := "Recupera parte de tu maná.",
                    effect := [("mp_percent", EffVal.num 40)], price := 12 },
   ShopEntry.item { name := "Antídoto", description := "Cura veneno.",
                    effect := [("cure", EffVal.txt "POISON")], price := 9 },
   ShopEntry.item { name := "Bomba", description := "Inflige daño explosivo.",
                    effect := [("damage", EffVal.num 30)], price := 18 }]

/-- The rotating pool of `build_shop_stock` (rpg2.py lines 1446-1450). -/
def shopRotation : List ShopEntry :=
  [ShopEntry.equipment { name := "Cota de Escamas",
                         description := "Protección media para aventureros.",
                         slot := "armor", stat_bonuses := [("def_", 5)], price := 34 },
   ShopEntry.equipment { name := "Anillo Veloz", description := "Incrementa la agilidad.",
                         slot := "accessory", stat_bonuses := [("agi", 2)], price := 28 },
   ShopEntry.item { name := "Panacea", description := "Remedio universal.",
                    effect := [("cure", EffVal.txt "BURN")], price := 14 }]

/-- `build_shop_stock` (rpg2.py lines 1432-1458): fixed catalog plus, in test
mode, the first rotating entry, otherwise each rotating entry independently
with a 50% roll. -/
def build_shop_stock (g : Game) : Game :=
  if g.testing then
    { g with shop_stock := shopBaseStock ++ shopConsumables ++ shopRotation.take 1 }
  else
    let step := fun (acc : List ShopEntry × Rng) (it : ShopEntry) =>
      let keep := rollChance acc.2 (1 / 2)
      (if keep.1 then acc.1 ++ [it] else acc.1, keep.2)
    let res := shopRotation.foldl step (([] : List ShopEntry), g.rng)
    { g with shop_stock := shopBaseStock ++ shopConsumables ++ res.1, rng := res.2 }

/-- `advance_time` (rpg2.py lines 991-998): add the elapsed steps, and only
when the new total lands exactly on a multiple of 6 advance the day and
rebuild the quest board and shop stock. -/
def advance_time (g : Game) (steps : Int) : Game :=
  if (g.turn_count + steps) % 6 = 0 then
    build_shop_stock (refresh_quest_board
      { g with turn_count := g.turn_count + steps, day := g.day + 1 })
  else { g with turn_count := g.turn_count + steps }

/-- The coordinate update of `move_player` (rpg2.py lines 1000-1011). -/
def movePos (pos : Int × Int) (direction : String) : Int × Int :=
  if direction = "n" then (pos.1, clamp (pos.2 - 1) 0 (mapSize - 1))
  else if direction = "s" then (pos.1, clamp (pos.2 + 1) 0 (mapSize - 1))
  else if direction = "e" then (clamp (pos.1 + 1) 0 (mapSize - 1), pos.2)
  else if direction = "o" then (clamp (pos.1 - 1) 0 (mapSize - 1), pos.2)
  else (pos.1, pos.2)

def markDiscovered (m : List ((Int × Int) × Location)) (pos : Int × Int) :
    List ((Int × Int) × Location) :=
  m.map (fun e => if e.1 = pos then (e.1, { e.2 with discovered := true }) else e)

/-- `move_player` (rpg2.py lines 1000-1016). -/
def move_player (g : Game) (direction : String) : Game :=
  match g.player with
  | none => g
  | some p =>
    let pos := movePos p.position direction
    let g1 := { g with player := some { p with position := pos } }
    let g2 :=
      if pos ∈ g1.discovered then g1
      else { g1 with discovered := g1.discovered ++ [pos],
                     game_map := markDiscovered g1.game_map pos }
    advance_time g2 1

def playerStunned (p : Player) : Bool :=
  p.status_effects.any (fun ef => decide (ef.status = StatusType.STUN))

def enemyStunned (e : Enemy) : Bool :=
  e.status_effects.any (fun ef => decide (ef.status = StatusType.STUN))

/-- `apply_status` (rpg2.py lines 702-708): merge into an existing effect of
the same kind (taking the larger potency and duration), else append. -/
def apply_status (target : List StatusEffect) (effect : StatusEffect) : List StatusEffect :=
  match target with
  | [] => [effect]
  | x :: xs =>
    if x.status = effect.status then
      { x with duration := max x.duration effect.duration,
               potency := max x.potency effect.potency } :: xs
    else x :: apply_status xs effect

def effectLookup (eff : EffectMap) (k : String) : Option EffVal :=
  (eff.find? (fun kv => decide (kv.1 = k))).map (fun kv => kv.2)

/-- Numeric reading of an effect value (a string value in an arithmetic
position would raise in Python; it never occurs there). -/
def effNum : EffVal → Int
  | .num n => n
  | .txt _ => 0

def playerApplyDamage (p : Player) (amount : Int) : Player :=
  { p with stats := statsApplyDamage p.stats amount }

def playerHeal (p : Player) (amount : Int) : Player :=
  { p with stats := statsHeal p.stats amount }

def playerRestoreMp (p : Player) (amount : Int) : Player :=
  { p with stats := statsRestoreMp p.stats amount }

def eraseFirstItem : List Item → Item → List Item
  | [], _ => []
  | x :: xs, a => if x = a then xs else x :: eraseFirstItem xs a

/-- `calc_damage` with its three draws consumed from the session oracle, in
source order: variance, crit roll, block roll. -/
def calcDamageR (attacker defender : Stats) (skill : Option Skill) (r : Rng) : Int × Rng :=
  let v := nextQ r
  let c := nextQ v.2
  let b := nextQ c.2
  (calc_damage attacker defender skill v.1 c.1 b.1, b.2)

/-- Python `max(available, key=base_power)`: first element of maximal power. -/
def maxByBasePower : List Skill → Option Skill
  | [] => none
  | x :: xs => some (xs.foldl (fun best s =>
      if best.base_power < s.base_power then s else best) x)

/-- `choose_enemy_skill` (rpg2.py lines 1416-1430).  The `status_targets` set
comprehension is modelled as a filter in skill order; the oracle index picks
the drawn element. -/
def choose_enemy_skill (r : Rng) (e : Enemy) (p : Player) : Option Skill × Rng :=
  let available := e.skills.filter (fun sk => decide (sk.mp_cost ≤ e.stats.mp))
  if available = [] then (none, r)
  else
    let statusTargets := available.filter (fun sk =>
      match sk.status with
      | some st => !(p.status_effects.any (fun ef => decide (ef.status = st.1)))
      | none => false)
    if statusTargets ≠ [] then chooseFrom r statusTargets
    else if (e.stats.hp : ℚ) < (e.stats.hp_max : ℚ) * (1 / 2) then
      (maxByBasePower available, r)
    else chooseFrom r available

/-- `use_item` (rpg2.py lines 1560-1576): effect keys checked in fixed
priority order; only the first match applies. -/
def use_item (g : Game) (item : Item) : Game :=
  match g.player with
  | none => g
  | some p =>
    match effectLookup item.effect "heal_percent" with
    | some v =>
      let amount := pyInt ((p.stats.hp_max : ℚ) * (effNum v : ℚ) / 100)
      { g with player := some (playerHeal p amount) }
    | none =>
      match effectLookup item.effect "mp_percent" with
      | some v =>
        let amount := pyInt ((p.stats.mp_max : ℚ) * (effNum v : ℚ) / 100)
        { g with player := some (playerRestoreMp p amount) }
      | none =>
        match effectLookup item.effect "cure" with
        | some v =>
          let keep := fun (s : StatusEffect) =>
            match v with
            | .txt c => decide (StatusType.name s.status ≠ c)
            | .num _ => true
          { g with player := some { p with status_effects := p.status_effects.filter keep } }
        | none =>
          match effectLookup item.effect "damage" with
          | some v =>
            match g.current_enemy with
            | some e =>
              let e1 := { e with stats :=
                { e.stats with hp := clamp (e.stats.hp - effNum v) 0 e.stats.hp_max } }
              { g with current_enemy := some e1 }
            | none => g
          | none => g

/-- `use_item_enemy` (rpg2.py lines 1578-1586). -/
def use_item_enemy (e : Enemy) (item : Item) : Enemy :=
  match effectLookup item.effect "heal_percent" with
  | some v =>
    let amount := pyInt ((e.stats.hp_max : ℚ) * (effNum v : ℚ) / 100)
    { e with stats := { e.stats with hp := clamp (e.stats.hp + amount) 0 e.stats.hp_max } }
  | none =>
    match effectLookup item.effect "mp_percent" with
    | some v =>
      let amount := pyInt ((e.stats.mp_max : ℚ) * (effNum v : ℚ) / 100)
      { e with stats := { e.stats with mp := clamp (e.stats.mp + amount) 0 e.stats.mp_max } }
    | none => e

/-- `choose_combat_action` (rpg2.py lines 1268-1278): the prompt's answer is
looked up in the 1-5 table with `ActionType.ATTACK` as the default for any
other input (`mapping.get(choice or "", ActionType.ATTACK)`). -/
def choose_combat_action (input : Option String) : ActionType :=
  let choice := match input with
                | none => ""
                | some s => s
  if choice = "1" then .ATTACK
  else if choice = "2" then .SKILL
  else if choice = "3" then .ITEM
  else if choice = "4" then .DEFEND
  else if choice = "5" then .FLEE
  else .ATTACK

/-- `resolve_player_action` (rpg2.py lines 1285-1315).  The interactive skill
and item sub-prompts (`select_player_skill`, `select_combat_item`) are
modelled by their outcome, passed as `selectedSkill` / `selectedItem`
(`none` models cancellation or an empty list). -/
def resolve_player_action (g : Game) (action : ActionType)
    (selectedSkill : Option Skill) (selectedItem : Option Item) : Game :=
  match g.player with
  | none => g
  | some p =>
    if playerStunned p then g
    else
      match action with
      | .ATTACK =>
        match g.current_enemy with
        | none => g
        | some e =>
          let res := calcDamageR p.stats e.stats none g.rng
          let e1 := { e with stats :=
            { e.stats with hp := clamp (e.stats.hp - res.1) 0 e.stats.hp_max } }
          { g with current_enemy := some e1, rng := res.2 }
      | .SKILL =>
        match selectedSkill with
        | none => g
        | some sk =>
          match g.current_enemy with
          | none => g
          | some e =>
            let p1 := { p with stats := { p.stats with mp := p.stats.mp - sk.mp_cost } }
            let res := calcDamageR p1.stats e.stats (some sk) g.rng
            let e1 := { e with stats :=
              { e.stats with hp := clamp (e.stats.hp - res.1) 0 e.stats.hp_max } }
            let e2 :=
              match sk.status with
              | some st =>
                { e1 with status_effects :=
                    apply_status e1.status_effects ⟨st.1, st.2.1, st.2.2⟩ }
              | none => e1
            { g with player := some p1, current_enemy := some e2, rng := res.2 }
      | .ITEM =>
        match selectedItem with
        | none => g
        | some item =>
          let g1 := use_item g item
          if item.consumable then
            match g1.player with
            | some p1 =>
              { g1 with player := some { p1 with inventory := eraseFirstItem p1.inventory item } }
            | none => g1
          else g1
      | .DEFEND => { g with player_guard_active := true }
      | .FLEE => g

/-- The skill-less fallback attack of the enemy turn (rpg2.py lines
1340-1345), followed by the guard-clearing statement (lines 1346-1347). -/
def enemyPlainAttack (g : Game) (p : Player) (e : Enemy) (r : Rng) : Game :=
  let res := calcDamageR e.stats p.stats none r
  let damage1 :=
    if g.player_guard_active then max 1 (pyInt ((res.1 : ℚ) * (3 / 5))) else res.1
  { g with player := some (playerApplyDamage p damage1), rng := res.2,
           player_guard_active := false }

/-- The skill attack of the enemy turn (rpg2.py lines 1330-1339), followed by
the guard-clearing statement.  The source's conditional status application
is modelled as an update of the status-effects field that leaves it unchanged
when the skill has no status template. -/
def enemySkillAttack (g : Game) (p : Player) (e : Enemy) (sk : Skill) (r : Rng) : Game :=
  let e1 := { e with stats := { e.stats with mp := e.stats.mp - sk.mp_cost } }
  let res := calcDamageR e1.stats p.stats (some sk) r
  let damage1 :=
    if g.player_guard_active then max 1 (pyInt ((res.1 : ℚ) * (3 / 5))) else res.1
  let p1 := playerApplyDamage p damage1
  let p2 :=
    { p1 with status_effects :=
        match sk.status with
        | some st => apply_status p1.status_effects ⟨st.1, st.2.1, st.2.2⟩
        | none => p1.status_effects }
  { g with player := some p2, current_enemy := some e1, rng := res.2,
           player_guard_active := false }

/-- `resolve_enemy_action` (rpg2.py lines 1317-1347).  A stunned enemy or an
enemy drinking its potion returns early — before the final guard-clearing
statement — so the guard flag survives those paths.  On the remaining paths
the chosen skill is discarded when unaffordable (line 1328-1329) and the turn
ends with a skill or plain attack. -/
def resolve_enemy_action (g : Game) : Game :=
  match g.player, g.current_enemy with
  | some p, some e =>
    if enemyStunned e then g
    else
      let potion :=
        if (e.stats.hp : ℚ) < (e.stats.hp_max : ℚ) * (7 / 20) then
          e.drops.find? (fun it => decide (it.name = "Poción"))
        else none
      match potion with
      | some po =>
        let e1 := use_item_enemy e po
        { g with current_enemy := some { e1 with drops := eraseFirstItem e1.drops po } }
      | none =>
        let chosen := choose_enemy_skill g.rng e p
        match chosen.1 with
        | some sk =>
          if e.stats.mp < sk.mp_cost then enemyPlainAttack g p e chosen.2
          else enemySkillAttack g p e sk chosen.2
        | none => enemyPlainAttack g p e chosen.2
  | _, _ => g

/-- One status tick of `apply_status_effect` (rpg2.py lines 1490-1509). -/
def tickOne (st : Stats) (ef : StatusEffect) : Stats :=
  match ef.status with
  | .POISON => statsApplyDamage st (max 1 ef.potency)
  | .BURN => statsApplyDamage st (max 1 ef.potency)
  | .REGEN => statsHeal st (max 1 ef.potency)
  | .STUN => st

/-- Ticking all of one combatant's effects (rpg2.py lines 1484-1515): apply
each effect, decrement its duration and drop it at zero. -/
def tickAll (st : Stats) (effects : List StatusEffect) : Stats × List StatusEffect :=
  effects.foldl (fun acc ef =>
    let s1 := tickOne acc.1 ef
    let ef1 := { ef with duration := ef.duration - 1 }
    (s1, if ef1.duration ≤ 0 then acc.2 else acc.2 ++ [ef1])) (st, [])

/-- `process_status_end_of_round` (rpg2.py lines 1484-1488): player effects
first, then enemy effects. -/
def process_status_end_of_round (g : Game) : Game :=
  let g1 :=
    match g.player with
    | some p =>
      let ticked := tickAll p.stats p.status_effects
      { g with player := some { p with stats := ticked.1, status_effects := ticked.2 } }
    | none => g
  match g1.current_enemy with
  | some e =>
    let ticked := tickAll e.stats e.status_effects
    { g1 with current_enemy := some { e with stats := ticked.1, status_effects := ticked.2 } }
  | none => g1

/-- `trigger_zone_event` (rpg2.py lines 1078-1096). -/
def trigger_zone_event (g : Game) (loc : Location) : Game :=
  match g.player with
  | none => g
  | some p =>
    if loc.tile_type = TileType.FOREST then
      let herb : Item :=
        { name := "Hierba curativa",
          description := "Ingrediente que restaura algo de salud.",
          effect := [("heal_percent", EffVal.num 15)], price := 4 }
      { g with player := some { p with inventory := p.inventory ++ [herb] } }
    else if loc.tile_type = TileType.CAVE then
      let bomb : Item :=
        { name := "Bomba",
          description := "Inflige daño explosivo al enemigo.",
          effect := [("damage", EffVal.num 30)], price := 18 }
      { g with player := some { p with inventory := p.inventory ++ [bomb] } }
    else if loc.tile_type = TileType.RUINS then
      let drawn := randint g.rng 12 24
      { g with player := some { p with stats :=
          { p.stats with gold := p.stats.gold + drawn.1 } }, rng := drawn.2 }
    else if loc.tile_type = TileType.LAKE then
      let heal := pyInt ((p.stats.hp_max : ℚ) * (3 / 20))
      { g with player := some (playerHeal p heal) }
    else g

/-- `try_encounter` (rpg2.py lines 1060-1076). -/
def try_encounter (g : Game) : Game :=
  match g.player with
  | none => g
  | some p =>
    match lookupLoc g.game_map p.position with
    | none => g
    | some loc =>
      let g1 := advance_time g 1
      if loc.tile_type = TileType.TOWN then g1
      else
        let roll1 := rollChance g1.rng loc.danger
        let g2 := { g1 with rng := roll1.2 }
        if roll1.1 then
          let gen := generateEnemy g2 loc.tile_type
          { gen.2 with state := State.COMBAT, current_enemy := some gen.1 }
        else
          let roll2 := rollChance g2.rng (1 / 4)
          let g3 := { g2 with rng := roll2.2 }
          if roll2.1 then trigger_zone_event g3 loc else g3

/-- `visit_inn` (rpg2.py lines 1018-1030). -/
def visit_inn (g : Game) : Game :=
  match g.player with
  | none => g
  | some p =>
    if p.stats.gold < 15 then g
    else
      let p1 :=
        { p with
          stats := { p.stats with
                     gold := p.stats.gold - 15, hp := p.stats.hp_max,
                     mp := p.stats.mp_max }
          status_effects := [] }
      advance_time { g with player := some p1 } 2

/-- `make_camp` (rpg2.py lines 1032-1058). -/
def make_camp (g : Game) : Game :=
  match g.player with
  | none => g
  | some p =>
    match lookupLoc g.game_map p.position with
    | none => g
    | some loc =>
      let healAmt := max 1 (pyInt ((p.stats.hp_max : ℚ) * (1 / 4)))
      let manaAmt := max 1 (pyInt ((p.stats.mp_max : ℚ) * (1 / 5)))
      let p1 := playerRestoreMp (playerHeal p healAmt) manaAmt
      let p2 := { p1 with status_effects := p1.status_effects.filter (fun ef =>
        !(decide (ef.status = StatusType.POISON) || decide (ef.status = StatusType.BURN))) }
      let danger := max (1 / 10 : ℚ) (loc.danger - 3 / 20)
      let g1 := advance_time { g with player := some p2 } 2
      let roll := rollChance g1.rng danger
      let g2 := { g1 with rng := roll.2 }
      if roll.1 then
        let gen := generateEnemy g2 loc.tile_type
        { gen.2 with current_enemy := some gen.1, state := State.COMBAT }
      else g2

/-- Python `str.lower()` on the ASCII range of the command alphabet. -/
def pyLowerChar (c : Char) : Char :=
  if 65 ≤ c.toNat ∧ c.toNat ≤ 90 then Char.ofNat (c.toNat + 32) else c

def pyLower (s : String) : String := ⟨s.data.map pyLowerChar⟩

/-- The whitespace set removed by Python `str.strip()`. -/
def pyIsSpace (c : Char) : Bool :=
  c = Char.ofNat 32 || c = Char.ofNat 9 || c = Char.ofNat 10 ||
  c = Char.ofNat 13 || c = Char.ofNat 11 || c = Char.ofNat 12

/-- Python `str.strip()`. -/
def pyStrip (s : String) : String :=
  ⟨((s.data.dropWhile pyIsSpace).reverse.dropWhile pyIsSpace).reverse⟩

/-- Python `s[0]` on a nonempty string, as a one-character string
(`lowered[0]`, rpg2.py line 932). -/
def pyTake1 (s : String) : String :=
  match s.data with
  | [] => ""
  | c :: _ => ⟨[c]⟩

/-- `handle_exploration` (rpg2.py lines 909-957): strip and lowercase the
input, then dispatch down the `elif` chain; the final `else` only prints
"Comando desconocido".  End of input (`None`) saves and ends the game.
Rendering (`render_map`, `describe_current_location`) and `save_game` are
presentation / external I/O and mutate none of the modelled fields. -/
def handle_exploration (g : Game) (input : Option String) : Game :=
  match g.player with
  | none => g
  | some p =>
    match input with
    | none => { g with state := State.GAME_OVER }
    | some raw =>
      let choice := pyStrip raw
      let lowered := pyLower choice
      let inTown : Bool :=
        match lookupLoc g.game_map p.position with
        | some loc => decide (loc.tile_type = TileType.TOWN)
        | none => false
      if choice = "E" ∨ lowered = "explorar" ∨ lowered = "exp" ∨ lowered = "buscar" then
        try_encounter g
      else if lowered = "n" ∨ lowered = "s" ∨ lowered = "e" ∨ lowered = "o" ∨
          lowered = "norte" ∨ lowered = "sur" ∨ lowered = "este" ∨ lowered = "oeste" then
        move_player g (pyTake1 lowered)
      else if lowered = "m" then g
      else if lowered = "q" then { g with state := State.QUESTS }
      else if lowered = "i" then { g with state := State.INVENTORY }
      else if lowered = "c" then { g with state := State.CHARACTER }
      else if lowered = "p" ∧ inTown = true then visit_inn g
      else if lowered = "r" ∧ inTown = false then make_camp g
      else if lowered = "t" then
        (if inTown = true ∨ g.testing = true then { g with state := State.SHOP } else g)
      else if lowered = "s" then g
      else if lowered = "x" then { g with state := State.MAIN_MENU }
      else g

/-- The three classes of save file an attempted load can meet. -/
inductive SaveFile
  | missing
  | badJson
  | parsed (d : GameStateDoc)

/-- What a call to `load_game` does: return normally with a success flag and
the (possibly updated) game, or escape with an uncaught exception. -/
inductive LoadOutcome
  | ret (loaded : Bool) (g : Game)
  | uncaught

/-- `load_game` (rpg2.py lines 1782-1805).  A missing file returns `False`
untouched; a file that fails JSON parsing is caught (`json.JSONDecodeError`)
and returns `False` untouched; a parsed document that `GameState.from_dict`
cannot decode raises outside the `try` block and the exception escapes. -/
def load_game (g : Game) (file : SaveFile) : LoadOutcome :=
  match file with
  | .missing => .ret false g
  | .badJson => .ret false g
  | .parsed d =>
    match gameStateFromDict d with
    | none => .uncaught
    | some gs =>
      let g1 :=
        { g with
          state := State.EXPLORATION, player := gs.player,
          game_map := gs.game_map, discovered := gs.discovered,
          day := gs.day, turn_count := gs.turn_count,
          quest_board := gs.quest_board, shop_stock := gs.shop_stock }
      let g2 := if g1.quest_board = [] then refresh_quest_board g1 else g1
      let g3 := if g2.shop_stock = [] then build_shop_stock g2 else g2
      .ret true g3

/-- `handle_saveload` (rpg2.py lines 1753-1759): on a failed load fall back to
the main menu; `none` models the process dying on an uncaught exception. -/
def handle_saveload (g : Game) (file : SaveFile) : Option Game :=
  match load_game g file with
  | .ret true g1 => some { g1 with state := State.EXPLORATION }
  | .ret false g1 => some { g1 with state := State.MAIN_MENU }
  | .uncaught => none

/-- The town tile of the map center (`ZONE_BLUEPRINTS[(0, "C")]`). -/
def townLoc : Location :=
  { position := (4, 4), tile_type := TileType.TOWN, discovered := true,
    zone := "Plaza de Eteria", danger := 0 }

def adventurer : Player :=
  { name := "Aventurero", class_type := .WARRIOR, stats := warriorStats, skills := [] }

/-- A concrete exploration-state game used to instantiate theorems. -/
def gameEx : Game :=
  { state := State.EXPLORATION, player := some adventurer,
    game_map := [((4, 4), townLoc)], discovered := [(4, 4)],
    current_enemy := none, player_guard_active := false,
    day := 1, turn_count := 0, quest_board := [], shop_stock := [],
    testing := false, rng := { qs := [], ns := [] } }

theorem refresh_quest_board_player (g : Game) : (refresh_quest_board g).player = g.player := rfl

theorem build_shop_stock_player (g : Game) : (build_shop_stock g).player = g.player := by
  unfold build_shop_stock
  split <;> rfl

theorem advance_time_player (g : Game) (steps : Int) :
    (advance_time g steps).player = g.player := by
  unfold advance_time
  split
  · rw [build_shop_stock_player, refresh_quest_board_player]
  · rfl

theorem refresh_quest_board_turn_count (g : Game) :
    (refresh_quest_board g).turn_count = g.turn_count := rfl

theorem refresh_quest_board_day (g : Game) : (refresh_quest_board g).day = g.day := rfl

theorem build_shop_stock_turn_count (g : Game) :
    (build_shop_stock g).turn_count = g.turn_count := by
  unfold build_shop_stock
  split <;> rfl

theorem build_shop_stock_day (g : Game) : (build_shop_stock g).day = g.day := by
  unfold build_shop_stock
  split <;> rfl

theorem advance_time_turn_count (g : Game) (steps : Int) :
    (advance_time g steps).turn_count = g.turn_count + steps := by
  unfold advance_time
  split
  · rw [build_shop_stock_turn_count, refresh_quest_board_turn_count]
  · rfl

theorem advance_time_day (g : Game) (steps : Int) :
    (advance_time g steps).day =
      if (g.turn_count + steps) % 6 = 0 then g.day + 1 else g.day := by
  unfold advance_time
  split
  · rw [build_shop_stock_day, refresh_quest_board_day]
  · rfl

/-- C9. From any in-bounds position, every movement command keeps the player
on the `[0, map_size-1] × [0, map_size-1]` grid — `move_player` stores exactly
the clamped coordinates — and a move against an edge leaves the blocked
coordinate (in fact the whole position) unchanged. -/
theorem move_player_in_bounds (g : Game) (p : Player) (direction : String)
    (hp : g.player = some p)
    (hx1 : 0 ≤ p.position.1) (hx2 : p.position.1 ≤ mapSize - 1)
    (hy1 : 0 ≤ p.position.2) (hy2 : p.position.2 ≤ mapSize - 1) :
    (0 ≤ (movePos p.position direction).1 ∧
       (movePos p.position direction).1 ≤ mapSize - 1 ∧
     0 ≤ (movePos p.position direction).2 ∧
       (movePos p.position direction).2 ≤ mapSize - 1) ∧
    (move_player g direction).player =
      some { p with position := movePos p.position direction } ∧
    (direction = "n" → p.position.2 = 0 →
       movePos p.position direction = p.position) ∧
    (direction = "s" → p.position.2 = mapSize - 1 →
       movePos p.position direction = p.position) ∧
    (direction = "e" → p.position.1 = mapSize - 1 →
       movePos p.position direction = p.position) ∧
    (direction = "o" → p.position.1 = 0 →
       movePos p.position direction = p.position) := by
  refine ⟨?_, ?_, ?_, ?_, ?_, ?_⟩
  · unfold movePos
    split_ifs
    · exact ⟨hx1, hx2, clamp_lower _ _, clamp_upper _ _ (by decide)⟩
    · exact ⟨hx1, hx2, clamp_lower _ _, clamp_upper _ _ (by decide)⟩
    · exact ⟨clamp_lower _ _, clamp_upper _ _ (by decide), hy1, hy2⟩
    · exact ⟨clamp_lower _ _, clamp_upper _ _ (by decide), hy1, hy2⟩
    · exact ⟨hx1, hx2, hy1, hy2⟩
  · unfold move_player
    rw [hp]
    dsimp only
    rw [advance_time_player]
    split <;> rfl
  · intro hd hy
    subst hd
    unfold movePos
    rw [if_pos rfl, hy]
    rw [show clamp (0 - 1) 0 (mapSize - 1) = 0 from by decide, ← hy]
  · intro hd hy
    subst hd
    unfold movePos
    rw [if_neg (by decide), if_pos rfl, hy]
    rw [show clamp (mapSize - 1 + 1) 0 (mapSize - 1) = mapSize - 1 from by decide, ← hy]
  · intro hd hx
    subst hd
    unfold movePos
    rw [if_neg (by decide), if_neg (by decide), if_pos rfl, hx]
    rw [show clamp (mapSize - 1 + 1) 0 (mapSize - 1) = mapSize - 1 from by decide, ← hx]
  · intro hd hx
    subst hd
    unfold movePos
    rw [if_neg (by decide), if_neg (by decide), if_neg (by decide), if_pos rfl, hx]
    rw [show clamp (0 - 1) 0 (mapSize - 1) = 0 from by decide, ← hx]

/-- Witness for C9 at the starting town tile and a northward move. -/
theorem move_player_in_bounds_witness :
    (0 ≤ (movePos adventurer.position "n").1 ∧
       (movePos adventurer.position "n").1 ≤ mapSize - 1 ∧
     0 ≤ (movePos adventurer.position "n").2 ∧
       (movePos adventurer.position "n").2 ≤ mapSize - 1) ∧
    (move_player gameEx "n").player =
      some { adventurer with position := movePos adventurer.position "n" } ∧
    ("n" = "n" → adventurer.position.2 = 0 →
       movePos adventurer.position "n" = adventurer.position) ∧
    ("n" = "s" → adventurer.position.2 = mapSize - 1 →
       movePos adventurer.position "n" = adventurer.position) ∧
    ("n" = "e" → adventurer.position.1 = mapSize - 1 →
       movePos adventurer.position "n" = adventurer.position) ∧
    ("n" = "o" → adventurer.position.1 = 0 →
       movePos adventurer.position "n" = adventurer.position) :=
  move_player_in_bounds gameEx adventurer "n" rfl (by decide) (by decide)
    (by decide) (by decide)

/-- C10. A failed load — missing save file, or save contents that fail JSON
parsing — returns `False` and leaves every field of the game untouched. -/
theorem load_game_failure_atomic (g : Game) :
    load_game g SaveFile.missing = LoadOutcome.ret false g ∧
    load_game g SaveFile.badJson = LoadOutcome.ret false g :=
  ⟨rfl, rfl⟩

/-- C8-counterexample.  A save file that is valid JSON but not the expected
document — here the empty JSON object, which lacks the required `"state"`
field — makes `load_game` raise an uncaught `KeyError` instead of reporting
and declining: deserialization failure is only recoverable at the JSON layer. -/
def emptyGameDoc : GameStateDoc :=
  { state := none, player := none, game_map := [], discovered := [],
    quest_board := [], shop_stock := [] }

theorem load_malformed_doc_uncaught :
    load_game gameEx (SaveFile.parsed emptyGameDoc) = LoadOutcome.uncaught := rfl

/-- C8 (amended). A missing file or a file that fails JSON parsing is
recoverable: `load_game` returns `False` with the game unchanged and the
save/load handler falls back to the main menu.  But a file whose parsed JSON
fails to decode as the expected document (`GameState.from_dict` raising)
escapes as an uncaught exception — only `json.JSONDecodeError` is caught. -/
theorem load_game_error_paths :
    (∀ g : Game, load_game g SaveFile.badJson = LoadOutcome.ret false g ∧
      handle_saveload g SaveFile.badJson = some { g with state := State.MAIN_MENU }) ∧
    (∀ g : Game, load_game g SaveFile.missing = LoadOutcome.ret false g) ∧
    (∀ (g : Game) (d : GameStateDoc), gameStateFromDict d = none →
      load_game g (SaveFile.parsed d) = LoadOutcome.uncaught ∧
      handle_saveload g (SaveFile.parsed d) = none) := by
  refine ⟨fun g => ⟨rfl, rfl⟩, fun g => rfl, fun g d h => ⟨?_, ?_⟩⟩
  · unfold load_game
    dsimp only
    rw [h]
  · unfold handle_saveload load_game
    dsimp only
    rw [h]

/-- Witness for C8 at the empty JSON document. -/
theorem load_game_error_paths_witness :
    gameStateFromDict emptyGameDoc = none ∧
    load_game gameEx (SaveFile.parsed emptyGameDoc) = LoadOutcome.uncaught ∧
    handle_saveload gameEx (SaveFile.parsed emptyGameDoc) = none :=
  ⟨rfl, (load_game_error_paths.2.2 gameEx emptyGameDoc rfl).1,
    (load_game_error_paths.2.2 gameEx emptyGameDoc rfl).2⟩

/-- Repeated single-turn advances (`advance_time()` with the default step). -/
def advanceOnes (g : Game) : Nat → Game
  | 0 => g
  | n + 1 => advance_time (advanceOnes g n) 1

theorem advanceOnes_counters (g : Game) (hg0 : g.turn_count = 0) (hd : g.day = 1) :
    ∀ n : Nat, (advanceOnes g n).turn_count = (n : Int) ∧
      (advanceOnes g n).day = 1 + ((n / 6 : Nat) : Int) := by
  intro n
  induction n with
  | zero =>
    refine ⟨hg0, ?_⟩
    show g.day = 1 + ((0 / 6 : Nat) : Int)
    rw [hd]
    decide
  | succ n ih =>
    obtain ⟨h1, h2⟩ := ih
    constructor
    · show (advance_time (advanceOnes g n) 1).turn_count = ((n : Nat) + 1 : Nat)
      rw [advance_time_turn_count, h1]
      push_cast
      ring
    · show (advance_time (advanceOnes g n) 1).day = 1 + (((n + 1 : Nat) / 6 : Nat) : Int)
      rw [advance_time_day, h1, h2]
      by_cases h : ((n : Int) + 1) % 6 = 0
      · rw [if_pos h]
        omega
      · rw [if_neg h]
        omega

/-- Sequential time advances with the given step sizes. -/
def advanceSeq (g : Game) : List Int → Game
  | [] => g
  | s :: rest => advanceSeq (advance_time g s) rest

/-- C6-counterexample.  Five single-turn advances followed by one 2-turn
advance (exactly the steps produced by five moves and one inn rest) reach
turn 7 with the day still 1: the 2-turn advance jumps over the multiple of 6,
so the rollover the claim predicts (day = 1 + ⌊7/6⌋ = 2) never fires. -/
theorem day_skip_counterexample :
    (advanceSeq gameEx [1, 1, 1, 1, 1, 2]).turn_count = 7 ∧
    (advanceSeq gameEx [1, 1, 1, 1, 1, 2]).day = 1 ∧
    (1 : Int) ≠ 1 + Int.fdiv 7 6 := by
  exact ⟨rfl, rfl, by decide⟩

/-- C6 (amended). `advance_time` always accumulates the elapsed steps; the
day advances — and the shop stock and quest board are rebuilt — exactly when
the accumulated turn count lands on a multiple of 6, and an advance that
jumps over a multiple of 6 changes nothing but the turn counter.  For
sequences of single-turn advances the claim's arithmetic holds: the day
equals 1 plus the number of completed 6-turn periods. -/
theorem advance_time_day_spec :
    (∀ (g : Game) (steps : Int),
      (advance_time g steps).turn_count = g.turn_count + steps) ∧
    (∀ (g : Game) (steps : Int), (g.turn_count + steps) % 6 = 0 →
      (advance_time g steps).day = g.day + 1 ∧
      advance_time g steps = build_shop_stock (refresh_quest_board
        { g with turn_count := g.turn_count + steps, day := g.day + 1 })) ∧
    (∀ (g : Game) (steps : Int), (g.turn_count + steps) % 6 ≠ 0 →
      advance_time g steps = { g with turn_count := g.turn_count + steps }) ∧
    (∀ (g : Game) (n : Nat), g.turn_count = 0 → g.day = 1 →
      (advanceOnes g n).day = 1 + ((n / 6 : Nat) : Int)) := by
  refine ⟨advance_time_turn_count, fun g steps h => ⟨?_, ?_⟩, fun g steps h => ?_,
    fun g n h1 h2 => (advanceOnes_counters g h1 h2 n).2⟩
  · rw [advance_time_day, if_pos h]
  · unfold advance_time
    rw [if_pos h]
  · unfold advance_time
    rw [if_neg h]

/-- Witness for C6 at a concrete game, one non-rollover advance and a
13-step run of single-turn advances. -/
theorem advance_time_day_spec_witness :
    ((gameEx.turn_count + 1) % 6 ≠ 0 ∧
      advance_time gameEx 1 = { gameEx with turn_count := gameEx.turn_count + 1 }) ∧
    (gameEx.turn_count = 0 ∧ gameEx.day = 1 ∧
      (advanceOnes gameEx 13).day = 1 + ((13 / 6 : Nat) : Int)) :=
  ⟨⟨by decide, advance_time_day_spec.2.2.1 gameEx 1 (by decide)⟩,
   ⟨rfl, rfl, advance_time_day_spec.2.2.2 gameEx 13 rfl rfl⟩⟩

/-- Current hp of the active enemy (0 when none). -/
def enemyHp (g : Game) : Int :=
  match g.current_enemy with
  | some e => e.stats.hp
  | none => 0

/-- A combat-state game against a fresh slime. -/
def gameC4 : Game :=
  { gameEx with state := State.COMBAT, current_enemy := some enemy_slime,
                rng := { qs := [9 / 10, 1, 1], ns := [] } }

/-- C4-counterexample.  In the combat state an unrecognized input is not
rejected: `choose_combat_action` maps the input "9" to `ActionType.ATTACK`
(`mapping.get(choice or "", ActionType.ATTACK)`), and `handle_combat`
(rpg2.py line 1236) then executes that action — here the slime's hp strictly
drops below its starting 30. -/
theorem combat_unknown_input_attacks :
    choose_combat_action (some "9") = ActionType.ATTACK ∧
    enemyHp (resolve_player_action gameC4 (choose_combat_action (some "9")) none none) <
      enemyHp gameC4 := by
  refine ⟨rfl, ?_⟩
  show clamp (30 - (calcDamageR adventurer.stats enemy_slime.stats none gameC4.rng).1)
      0 30 < 30
  have hd : 1 ≤ (calcDamageR adventurer.stats enemy_slime.stats none gameC4.rng).1 :=
    calc_damage_pos adventurer.stats enemy_slime.stats none _ _ _
  unfold clamp
  have h1 : (30 : Int) - (calcDamageR adventurer.stats enemy_slime.stats none gameC4.rng).1
      ≤ 29 := by omega
  exact max_lt (by norm_num) (lt_of_le_of_lt (min_le_right _ _) (by omega))

/-- C4 (amended). In the exploration state an input that matches no command
token leaves the game unchanged apart from an error report.  In the combat
state, however, an unrecognized input is not rejected: it defaults to the
Attack action (which the combat loop then executes). -/
theorem unknown_command_dispatch :
    (∀ (g : Game) (raw : String),
      pyStrip raw ≠ "E" →
      pyLower (pyStrip raw) ≠ "explorar" →
      pyLower (pyStrip raw) ≠ "exp" →
      pyLower (pyStrip raw) ≠ "buscar" →
      pyLower (pyStrip raw) ≠ "n" →
      pyLower (pyStrip raw) ≠ "s" →
      pyLower (pyStrip raw) ≠ "e" →
      pyLower (pyStrip raw) ≠ "o" →
      pyLower (pyStrip raw) ≠ "norte" →
      pyLower (pyStrip raw) ≠ "sur" →
      pyLower (pyStrip raw) ≠ "este" →
      pyLower (pyStrip raw) ≠ "oeste" →
      pyLower (pyStrip raw) ≠ "m" →
      pyLower (pyStrip raw) ≠ "q" →
      pyLower (pyStrip raw) ≠ "i" →
      pyLower (pyStrip raw) ≠ "c" →
      pyLower (pyStrip raw) ≠ "p" →
      pyLower (pyStrip raw) ≠ "r" →
      pyLower (pyStrip raw) ≠ "t" →
      pyLower (pyStrip raw) ≠ "x" →
      handle_exploration g (some raw) = g) ∧
    (∀ s : String, s ≠ "1" → s ≠ "2" → s ≠ "3" → s ≠ "4" → s ≠ "5" →
      choose_combat_action (some s) = ActionType.ATTACK) := by
  constructor
  · intro g raw h1 h2 h3 h4 h5 h6 h7 h8 h9 h10 h11 h12 h13 h14 h15 h16 h17 h18 h19 h20
    unfold handle_exploration
    cases hpl : g.player with
    | none => rfl
    | some p =>
      dsimp only
      rw [if_neg (by simp [h1, h2, h3, h4]),
        if_neg (by simp [h5, h6, h7, h8, h9, h10, h11, h12]),
        if_neg h13, if_neg h14, if_neg h15, if_neg h16,
        if_neg (by simp [h17]), if_neg (by simp [h18]),
        if_neg h19, if_neg h6, if_neg h20]
  · intro s hs1 hs2 hs3 hs4 hs5
    unfold choose_combat_action
    dsimp only
    rw [if_neg hs1, if_neg hs2, if_neg hs3, if_neg hs4, if_neg hs5]

/-- Witness for C4 at an input matching no token. -/
theorem unknown_command_dispatch_witness :
    handle_exploration gameEx (some "hola") = gameEx ∧
    choose_combat_action (some "hola") = ActionType.ATTACK :=
  ⟨unknown_command_dispatch.1 gameEx "hola" (by decide) (by decide) (by decide)
      (by decide) (by decide) (by decide) (by decide) (by decide) (by decide)
      (by decide) (by decide) (by decide) (by decide) (by decide) (by decide)
      (by decide) (by decide) (by decide) (by decide) (by decide),
   unknown_command_dispatch.2 "hola" (by decide) (by decide) (by decide)
      (by decide) (by decide)⟩

/-- A slime that is stunned for the current round. -/
def stunnedSlime : Enemy :=
  { enemy_slime with status_effects := [⟨StatusType.STUN, 0, 1⟩] }

/-- Combat against the stunned slime. -/
def gameC5 : Game :=
  { gameEx with state := State.COMBAT, current_enemy := some stunnedSlime }

/-- A salamander hurt below 35% of max hp (still carrying its potion drop). -/
def woundedSalamander : Enemy :=
  { enemy_salamander with stats := { enemy_salamander.stats with hp := 10 } }

/-- Combat against the wounded salamander. -/
def gameC5p : Game :=
  { gameEx with state := State.COMBAT, current_enemy := some woundedSalamander }

/-- The potion in the salamander's drop pool. -/
def salamanderPotion : Item :=
  { name := "Poción", description := "Repara heridas.",
    effect := [("heal_percent", EffVal.num 40)], price := 12 }

/-- C5-counterexample.  A full round in which the player Defends and the
enemy is stunned: `resolve_enemy_action` returns before its guard-clearing
statement, and the end-of-round status ticks never touch the flag, so the
one-shot guard survives into the next round unconsumed. -/
theorem guard_survives_stunned_enemy :
    (process_status_end_of_round (resolve_enemy_action
      (resolve_player_action gameC5 ActionType.DEFEND none none))).player_guard_active =
      true := rfl

/-- C5 (amended). Selecting Defend (while not stunned) sets the one-shot
guard flag, and an incoming hit on a completed enemy turn has its damage
multiplied by 0.6 (re-clamped to a minimum of 1) exactly when the flag is
set, after which the flag is cleared.  The flag is NOT cleared on the two
early-return paths of the enemy turn — a stunned enemy, or an enemy drinking
its potion — so on those paths it survives into the next round. -/
theorem enemyPlainAttack_guard (g : Game) (p : Player) (e : Enemy) (r : Rng) :
    (enemyPlainAttack g p e r).player_guard_active = false ∧
    ∃ d : Int, 1 ≤ d ∧ ∃ p2 : Player,
      (enemyPlainAttack g p e r).player = some p2 ∧
      p2.stats.hp = clamp (p.stats.hp -
        (if g.player_guard_active = true then max 1 (pyInt ((d : ℚ) * (3 / 5))) else d))
        0 p.stats.hp_max := by
  refine ⟨rfl, (calcDamageR e.stats p.stats none r).1, ?_,
    playerApplyDamage p (if g.player_guard_active = true then
      max 1 (pyInt (((calcDamageR e.stats p.stats none r).1 : ℚ) * (3 / 5)))
      else (calcDamageR e.stats p.stats none r).1), ?_, ?_⟩
  · exact calc_damage_pos e.stats p.stats none _ _ _
  · rfl
  · rfl

theorem enemySkillAttack_guard (g : Game) (p : Player) (e : Enemy) (sk : Skill) (r : Rng) :
    (enemySkillAttack g p e sk r).player_guard_active = false ∧
    ∃ d : Int, 1 ≤ d ∧ ∃ p2 : Player,
      (enemySkillAttack g p e sk r).player = some p2 ∧
      p2.stats.hp = clamp (p.stats.hp -
        (if g.player_guard_active = true then max 1 (pyInt ((d : ℚ) * (3 / 5))) else d))
        0 p.stats.hp_max := by
  refine ⟨rfl, (calcDamageR { e with stats :=
      { e.stats with mp := e.stats.mp - sk.mp_cost } }.stats p.stats (some sk) r).1, ?_,
    ?_, ?_, ?_⟩
  · exact calc_damage_pos _ p.stats (some sk) _ _ _
  case refine_2 =>
    exact (enemySkillAttack g p e sk r).player.getD p
  case refine_3 =>
    rfl
  case refine_4 =>
    rfl

theorem guard_flag_behavior :
    (∀ (g : Game) (p : Player), g.player = some p → playerStunned p = false →
      resolve_player_action g ActionType.DEFEND none none =
        { g with player_guard_active := true }) ∧
    (∀ (g : Game) (p : Player) (e : Enemy), g.player = some p →
      g.current_enemy = some e → enemyStunned e = true →
      resolve_enemy_action g = g) ∧
    (∀ (g : Game) (p : Player) (e : Enemy) (potion : Item), g.player = some p →
      g.current_enemy = some e → enemyStunned e = false →
      (e.stats.hp : ℚ) < (e.stats.hp_max : ℚ) * (7 / 20) →
      e.drops.find? (fun it => decide (it.name = "Poción")) = some potion →
      (resolve_enemy_action g).player_guard_active = g.player_guard_active ∧
      (resolve_enemy_action g).player = g.player) ∧
    (∀ (g : Game) (p : Player) (e : Enemy), g.player = some p →
      g.current_enemy = some e → enemyStunned e = false →
      (¬ (e.stats.hp : ℚ) < (e.stats.hp_max : ℚ) * (7 / 20) ∨
        e.drops.find? (fun it => decide (it.name = "Poción")) = none) →
      (resolve_enemy_action g).player_guard_active = false ∧
      ∃ d : Int, 1 ≤ d ∧ ∃ p2 : Player,
        (resolve_enemy_action g).player = some p2 ∧
        p2.stats.hp = clamp (p.stats.hp -
          (if g.player_guard_active = true then max 1 (pyInt ((d : ℚ) * (3 / 5))) else d))
          0 p.stats.hp_max) := by
  refine ⟨?_, ?_, ?_, ?_⟩
  · intro g p hp hstun
    unfold resolve_player_action
    rw [hp]
    dsimp only
    rw [if_neg (by simp [hstun])]
  · intro g p e hp he hstun
    unfold resolve_enemy_action
    rw [hp, he]
    dsimp only
    rw [if_pos hstun]
  · intro g p e potion hp he hstun hlow hfind
    unfold resolve_enemy_action
    rw [hp, he]
    dsimp only
    rw [if_neg (by simp [hstun]), if_pos hlow, hfind]
    exact ⟨rfl, rfl⟩
  · intro g p e hp he hstun hpath
    unfold resolve_enemy_action
    rw [hp, he]
    dsimp only
    rw [if_neg (by simp [hstun])]
    have hpot : (if (e.stats.hp : ℚ) < (e.stats.hp_max : ℚ) * (7 / 20) then
        e.drops.find? (fun it => decide (it.name = "Poción")) else none) = none := by
      rcases hpath with h | h
      · rw [if_neg h]
      · split
        · exact h
        · rfl
    rw [hpot]
    dsimp only
    cases hc : (choose_enemy_skill g.rng e p).1 with
    | none => exact enemyPlainAttack_guard g p e _
    | some sk =>
      dsimp only
      by_cases hmp : e.stats.mp < sk.mp_cost
      · rw [if_pos hmp]
        exact enemyPlainAttack_guard g p e _
      · rw [if_neg hmp]
        exact enemySkillAttack_guard g p e sk _

/-- Witness for C5 at concrete combats: Defend at gameEx; a stunned enemy; a
potion-drinking enemy; a normally attacking enemy. -/
theorem guard_flag_behavior_witness :
    resolve_player_action gameEx ActionType.DEFEND none none =
      { gameEx with player_guard_active := true } ∧
    resolve_enemy_action gameC5 = gameC5 ∧
    ((resolve_enemy_action gameC5p).player_guard_active = gameC5p.player_guard_active ∧
      (resolve_enemy_action gameC5p).player = gameC5p.player) ∧
    ((resolve_enemy_action gameC4).player_guard_active = false ∧
      ∃ d : Int, 1 ≤ d ∧ ∃ p2 : Player,
        (resolve_enemy_action gameC4).player = some p2 ∧
        p2.stats.hp = clamp (adventurer.stats.hp -
          (if gameC4.player_guard_active = true then max 1 (pyInt ((d : ℚ) * (3 / 5))) else d))
          0 adventurer.stats.hp_max) :=
  ⟨guard_flag_behavior.1 gameEx adventurer rfl rfl,
   guard_flag_behavior.2.1 gameC5 adventurer stunnedSlime rfl rfl rfl,
   guard_flag_behavior.2.2.1 gameC5p adventurer woundedSalamander salamanderPotion rfl rfl
     rfl (by norm_num [woundedSalamander, enemy_salamander]) rfl,
   guard_flag_behavior.2.2.2 gameC4 adventurer enemy_slime rfl rfl rfl
     (Or.inl (by norm_num [enemy_slime]))⟩
